import Mathlib

/-!
Verification of the times-backend content-management server (src/index.js).

The JavaScript source is shallowly embedded: the JSON document on disk is a
Lean structure, each Express route handler is a pure function from the stored
document (plus the request body, the parsed multipart files, the upload
oracle's outcome and the wall clock) to an HTTP response together with the
document as persisted at the end of the request.  JavaScript `undefined` on
string-valued record fields and request fields is modeled as `Option String`
with `none` for `undefined`.  The Cloudinary transport is external to the
program, so each route that uploads takes the transport outcome
(`Except String String`: error message or secure URL) as an input.
-/

namespace TimesBackend

/-- JS `x || fallback` for an optional string: `undefined` and the empty
string are falsy, every other string is truthy. -/
def strOr (x : Option String) (fallback : String) : String :=
  match x with
  | none => fallback
  | some s => if s = "" then fallback else s

/-- JS `x || y` where both operands may be `undefined`. -/
def jsOrOpt (x y : Option String) : Option String :=
  match x with
  | none => y
  | some s => if s = "" then y else some s

/-- JS `x !== undefined ? x : prev`. -/
def ifProvided (x prev : Option String) : Option String :=
  match x with
  | none => prev
  | some s => some s

/-- JS `Number(s)` on the decimal-integer strings this system stores;
a non-numeric string gives NaN, modeled as `none`. -/
def jsNumber (s : String) : Option Int := s.toInt?

/-- The `title.substring(0, 50)` truncation with the trailing `...` used by
every activity-log message (`title.length > 50 ? '...' : ''`). -/
def truncTitle (t : String) : String :=
  t.take 50 ++ (if 50 < t.length then "..." else "")

/-- Substring containment on character lists: some suffix of `hay` starts
with `needle`. -/
def listContains (hay needle : List Char) : Bool :=
  match hay with
  | [] => decide (needle = [])
  | _ :: t => needle.isPrefixOf hay || listContains t needle

/-- JS `RegExp.test` for the alternation-of-literals regexes in the source:
the string contains one of the literal alternatives as a substring. -/
def strContains (hay needle : String) : Bool :=
  listContains hay.data needle.data

/-- A regex of the form `/a|b|c/` applied with `.test(s)`: true when `s`
contains any of the alternatives. -/
def testAny (pats : List String) (s : String) : Bool :=
  pats.any (fun p => strContains s p)

/-- JS `toLowerCase` character by character (the file extensions and MIME
strings this system lowercases are ASCII). -/
def lowerString (s : String) : String := String.mk (s.data.map Char.toLower)

/-- Node `path.extname` for ordinary file names (no directory separators,
nonempty base): the suffix starting at the last dot, or the empty string when
there is no dot or the only dot is the leading character. -/
def extname (s : String) : String :=
  let rev := s.data.reverse
  match rev.findIdx? (fun c => c = '.') with
  | none => ""
  | some i => if i + 1 = s.data.length then "" else String.mk ((rev.take (i + 1)).reverse)

/-- A file as multer hands it to a fileFilter and to the route handler. -/
structure UploadFile where
  fieldname : String
  originalname : String
  mimetype : String
deriving Repr, DecidableEq

/-- Outcome of a multer fileFilter: `cb(null, true)` or `cb(new Error(m))`. -/
inductive FilterResult where
  | accept
  | reject (message : String)
deriving Repr, DecidableEq

/-- The HTTP response a route produces.  `ok` is `res.json` (with
`res.status(s).json` for s other than 200), `err` is
`res.status(s).json(\x7b error, details? \x7d)`, and `middlewareError` is a multer
fileFilter rejection surfaced by Express before the route handler runs. -/
inductive ApiResponse (α : Type) where
  | ok (status : Nat) (body : α)
  | err (status : Nat) (error : String) (details : Option String)
  | middlewareError (message : String)
deriving Repr, DecidableEq

/-- A poster slot record as built by POST /api/posters and by the GET padding. -/
structure Poster where
  id : Nat
  title : String
  image : String
  link : String
deriving Repr, DecidableEq

/-- A breaking-news record (POST /api/breaking-news). -/
structure BreakingNews where
  id : Nat
  headline : Option String
  shortDescription : Option String
  fullDescription : Option String
  category : Option String
  state : Option String
  videoUrl : String
  thumbnail : String
  youtubeUrl : String
  timestamp : String
deriving Repr, DecidableEq

/-- A featured-story record (POST /api/featured-stories). -/
structure FeaturedStory where
  id : Nat
  title : Option String
  description : Option String
  content : Option String
  category : Option String
  state : Option String
  excerpt : Option String
  imageUrl : String
  priority : Option Int
  views : String
  timestamp : String
deriving Repr, DecidableEq

/-- A category record (POST /api/categories). -/
structure Category where
  id : Nat
  name : Option String
  description : Option String
  timestamp : String
deriving Repr, DecidableEq

/-- A media record (POST /api/media). -/
structure Media where
  id : Nat
  title : Option String
  description : Option String
  url : String
  type : String
  timestamp : String
deriving Repr, DecidableEq

/-- A news-article record (POST /api/news). -/
structure NewsArticle where
  id : Nat
  title : Option String
  content : Option String
  category : Option String
  imageUrl : String
  timestamp : String
deriving Repr, DecidableEq

/-- A static-page record (POST /api/static-pages). -/
structure StaticPage where
  id : Nat
  title : Option String
  content : Option String
  slug : Option String
  timestamp : String
deriving Repr, DecidableEq

/-- A ticker record (POST /api/tickers). -/
structure Ticker where
  id : Nat
  text : Option String
  type : Option String
  active : Bool
  timestamp : String
deriving Repr, DecidableEq

/-- An advertisement record (POST /api/ads). -/
structure Ad where
  id : Nat
  title : Option String
  placement : Option String
  imageUrl : String
  url : Option String
  startDate : Option String
  endDate : Option String
  active : Bool
  timestamp : String
deriving Repr, DecidableEq

/-- A user record (POST /api/users).  `password` is stored in plaintext and
set to `none` (JS `undefined`) on every outbound copy. -/
structure User where
  id : Nat
  username : Option String
  password : Option String
  role : Option String
  email : Option String
  timestamp : String
deriving Repr, DecidableEq

/-- An activity-log record (logActivity). -/
structure Activity where
  id : Nat
  type : String
  title : String
  user : String
  status : String
  timestamp : String
deriving Repr, DecidableEq

/-- The `tools` collection of the initial document is never read or written
by any handler; its records carry no observable structure. -/
structure Tool where
deriving Repr, DecidableEq

/-- The single JSON document held in ./data.json.  The `activities` key is
absent from the document readData builds for a missing file and is created
lazily by logActivity, so it is an `Option`; every other collection listed
here is present in every document the system itself writes. -/
structure Document where
  posters : List Poster
  breakingNews : List BreakingNews
  featuredStories : List FeaturedStory
  categories : List Category
  users : List User
  media : List Media
  news : List NewsArticle
  staticPages : List StaticPage
  tickers : List Ticker
  tools : List Tool
  ads : List Ad
  activities : Option (List Activity)
deriving Repr, DecidableEq

/-- The object literal readData returns when DATA_FILE does not exist:
ten empty collections plus `tools`, and no `activities` key. -/
def initialDocument : Document :=
  { posters := []
    breakingNews := []
    featuredStories := []
    categories := []
    users := []
    media := []
    news := []
    staticPages := []
    tickers := []
    tools := []
    ads := []
    activities := none }

/-- readData: parse the backing file when it exists, otherwise the initial
object literal.  The file's contents are modeled as `Option Document`. -/
def readData (file : Option Document) : Document :=
  match file with
  | none => initialDocument
  | some d => d

/-- logActivity(type, title, user, status): read the document, create the
`activities` array if missing, unshift a fresh record, keep only the first
50, and write the document back.  `now`/`nowIso` are the Date.now() and
toISOString() readings. -/
def logActivity (doc : Document) (type title user status : String)
    (now : Nat) (nowIso : String) : Document :=
  let acts := doc.activities.getD []
  let activity : Activity :=
    { id := now, type := type, title := title, user := user, status := status,
      timestamp := nowIso }
  { doc with activities := some ((activity :: acts).take 50) }

/-- The fileFilter of the generic `upload` multer instance (video-only);
defined in the source but attached to no route.  The same
`/mp4|mov|avi|wmv/` regex tests both the lowercased extension and the
MIME type. -/
def videoFileFilter (file : UploadFile) : FilterResult :=
  let extOk := testAny ["mp4", "mov", "avi", "wmv"] (lowerString (extname file.originalname))
  let mimeOk := testAny ["mp4", "mov", "avi", "wmv"] file.mimetype
  if extOk && mimeOk then .accept else .reject "Video files only!"

/-- The fileFilter of `breakingNewsUpload`: a file passes as a video
(extension and MIME both in the video lists) or as an image (extension and
MIME both in the image lists). -/
def breakingNewsFileFilter (file : UploadFile) : FilterResult :=
  let ext := lowerString (extname file.originalname)
  let isValidVideo := testAny ["mp4", "mov", "avi", "wmv"] ext
    && testAny ["video/mp4", "video/quicktime", "video/avi", "video/x-msvideo"] file.mimetype
  let isValidImage := testAny ["jpeg", "jpg", "png", "gif", "webp"] ext
    && testAny ["image/jpeg", "image/jpg", "image/png", "image/gif", "image/webp"] file.mimetype
  if isValidVideo || isValidImage then .accept
  else .reject ("Invalid file type. Only video (MP4, MOV, AVI, WMV) and image (JPEG, JPG, PNG, GIF, WebP) files are allowed. Got: "
    ++ file.mimetype ++ " with extension: " ++ ext)

/-- The fileFilter of `posterUpload` (images including webp and avif): both
the lowercased extension and the MIME type must match. -/
def posterFileFilter (file : UploadFile) : FilterResult :=
  let ext := lowerString (extname file.originalname)
  let extOk := testAny ["jpeg", "jpg", "png", "gif", "webp", "avif"] ext
  let mimeOk := testAny ["image/jpeg", "image/jpg", "image/png", "image/gif", "image/webp", "image/avif"] file.mimetype
  if extOk && mimeOk then .accept
  else .reject ("Invalid file type. Only JPEG, JPG, PNG, GIF, WebP, and AVIF are allowed. Got: "
    ++ file.mimetype ++ " with extension: " ++ ext)

/-- First fileFilter rejection among the files of a request, in order; multer
runs the filter on each incoming file and the first error aborts the request
before the route handler runs. -/
def firstRejection (filter : UploadFile → FilterResult) : List UploadFile → Option String
  | [] => none
  | f :: rest =>
    match filter f with
    | .reject m => some m
    | .accept => firstRejection filter rest

/-- uploadToCloudinary on a staged file: the transport outcome is an input;
a transport error is rethrown with the `Failed to upload to Cloudinary: `
prefix.  Local staging-file deletion is a filesystem side effect outside the
document state. -/
def uploadToCloudinary (outcome : Except String String) : Except String String :=
  match outcome with
  | .ok url => .ok url
  | .error msg => .error ("Failed to upload to Cloudinary: " ++ msg)

/-- JS `arr.findIndex(p)` paired with `arr[idx]`: the index of the first
element satisfying `p` together with that element; `none` when findIndex
returns -1. -/
def findIdxElem {α : Type} (l : List α) (p : α → Bool) : Option (Nat × α) :=
  match l with
  | [] => none
  | x :: xs =>
    if p x then some (0, x)
    else (findIdxElem xs p).map (fun q => (q.1 + 1, q.2))

/-- Message of the TypeError Node throws for `undefined.substring(...)`,
surfaced as `error.message` by the catch blocks that run logActivity with an
undefined title. -/
def undefinedSubstringMsg : String :=
  "Cannot read properties of undefined (reading 'substring')"

/-- POST /api/auth/login result: `res.json` of the user with the password
overwritten by `undefined`, or the uniform 401 body
(success false, message Invalid credentials). -/
inductive LoginResult where
  | success (user : User)
  | invalid
deriving Repr, DecidableEq

/-- POST /api/auth/login: find a user whose username and password both
strictly equal the request's, strip the password on success, answer the one
fixed 401 body otherwise. -/
def login (doc : Document) (username password : Option String) : LoginResult :=
  match doc.users.find? (fun u => u.username == username && u.password == password) with
  | some u => .success { u with password := none }
  | none => .invalid

/-- One iteration of the GET /api/posters while loop: when fewer than 3
entries are present, push `\x7b id: length + 1, title: '', image: '',
link: '' \x7d`. -/
def padOnce (l : List Poster) : List Poster :=
  if l.length < 3 then
    l ++ [{ id := l.length + 1, title := "", image := "", link := "" }]
  else l

/-- The while loop of GET /api/posters: push placeholders until at least 3
entries are present.  Each iteration grows the list by one, so the loop
body runs at most three times; three unrolled iterations compute the loop
exactly on every input. -/
def padPosters (l : List Poster) : List Poster :=
  padOnce (padOnce (padOnce l))

/-- GET /api/posters: pad the stored posters to 3 entries; nothing is
written back. -/
def getPosters (doc : Document) : ApiResponse (List Poster) × Document :=
  (.ok 200 (padPosters doc.posters), doc)

/-- The text fields of one slot of the POST /api/posters body. -/
structure PosterSlotBody where
  title : Option String
  link : Option String
  imageUrl : Option String
deriving Repr, DecidableEq

/-- The POST /api/posters request: three slots of body fields and an
optional uploaded file per slot (fields posterImage1..3). -/
structure PostersRequest where
  slot1 : PosterSlotBody
  slot2 : PosterSlotBody
  slot3 : PosterSlotBody
  file1 : Option UploadFile
  file2 : Option UploadFile
  file3 : Option UploadFile
deriving Repr, DecidableEq

/-- The files of a request that are actually present, in field order. -/
def presentFiles (l : List (Option UploadFile)) : List UploadFile :=
  l.filterMap id

/-- The image URL one poster slot ends up with: the uploaded file's
Cloudinary URL when a file is attached (an upload error aborts the loop),
otherwise the body's posterImageUrl, with `|| ''` applied. -/
def slotUploadedImage (slot : PosterSlotBody) (file : Option UploadFile)
    (oracle : Except String String) : Except String String :=
  match file with
  | none => .ok (strOr slot.imageUrl "")
  | some _ =>
    match uploadToCloudinary oracle with
    | .error m => .error m
    | .ok url => .ok (strOr (some url) "")

/-- One record pushed by the POST /api/posters loop. -/
def mkPosterSlot (i : Nat) (slot : PosterSlotBody) (image : String) : Poster :=
  { id := i, title := strOr slot.title "", image := image, link := strOr slot.link "" }

/-- POST /api/posters: after the posterUpload fileFilter admits every
attached file, build the three slot records (uploading each attached file in
slot order) and replace the whole posters collection with them; any upload
error is caught and answered with a 500 that carries the error message, with
nothing persisted. -/
def postPosters (doc : Document) (req : PostersRequest)
    (o1 o2 o3 : Except String String) : ApiResponse (List Poster) × Document :=
  match firstRejection posterFileFilter (presentFiles [req.file1, req.file2, req.file3]) with
  | some m => (.middlewareError m, doc)
  | none =>
    match slotUploadedImage req.slot1 req.file1 o1 with
    | .error m => (.err 500 ("Failed to update posters: " ++ m) none, doc)
    | .ok img1 =>
      match slotUploadedImage req.slot2 req.file2 o2 with
      | .error m => (.err 500 ("Failed to update posters: " ++ m) none, doc)
      | .ok img2 =>
        match slotUploadedImage req.slot3 req.file3 o3 with
        | .error m => (.err 500 ("Failed to update posters: " ++ m) none, doc)
        | .ok img3 =>
          let posters := [mkPosterSlot 1 req.slot1 img1, mkPosterSlot 2 req.slot2 img2,
            mkPosterSlot 3 req.slot3 img3]
          (.ok 200 posters, { doc with posters := posters })

/-- The text fields of the breaking-news POST and PUT bodies. -/
structure BreakingNewsBody where
  headline : Option String
  shortDescription : Option String
  fullDescription : Option String
  category : Option String
  state : Option String
  youtubeUrl : Option String
deriving Repr, DecidableEq

/-- The first file of a given multipart field among
`breakingNewsUpload.any()`'s file array (`filesByField[name][0]`). -/
def firstField (files : List UploadFile) (field : String) : Option UploadFile :=
  files.find? (fun f => f.fieldname == field)

/-- GET /api/breaking-news. -/
def getBreakingNews (doc : Document) : ApiResponse (List BreakingNews) × Document :=
  (.ok 200 doc.breakingNews, doc)

/-- POST /api/breaking-news: filter every file, upload the first `video`
file then the first `thumbnail` file (each failure answers 500 immediately
with nothing persisted), build the record with defaulted URL fields and
unshift it onto breakingNews. -/
def postBreakingNews (doc : Document) (body : BreakingNewsBody)
    (files : List UploadFile) (videoOracle thumbOracle : Except String String)
    (now : Nat) (nowIso : String) : ApiResponse BreakingNews × Document :=
  match firstRejection breakingNewsFileFilter files with
  | some m => (.middlewareError m, doc)
  | none =>
    let videoRes : Except String String :=
      match firstField files "video" with
      | none => .ok ""
      | some _ => uploadToCloudinary videoOracle
    match videoRes with
    | .error m => (.err 500 "Failed to upload video" (some m), doc)
    | .ok videoUrl =>
      let thumbRes : Except String String :=
        match firstField files "thumbnail" with
        | none => .ok ""
        | some _ => uploadToCloudinary thumbOracle
      match thumbRes with
      | .error m => (.err 500 "Failed to upload thumbnail" (some m), doc)
      | .ok thumbnailUrl =>
        let newNews : BreakingNews :=
          { id := now, headline := body.headline,
            shortDescription := body.shortDescription,
            fullDescription := body.fullDescription, category := body.category,
            state := body.state, videoUrl := videoUrl,
            thumbnail := strOr (some thumbnailUrl) "",
            youtubeUrl := strOr body.youtubeUrl "", timestamp := nowIso }
        (.ok 200 newNews, { doc with breakingNews := newNews :: doc.breakingNews })

/-- JS `x !== undefined ? x : prev` where the stored field is a string. -/
def ifProvidedStr (x : Option String) (prev : String) : String :=
  match x with
  | none => prev
  | some s => s

/-- PUT /api/breaking-news/:id: 404 when the id is absent; otherwise keep
each body field's previous value unless provided, replace videoUrl and
thumbnail only when a new file is uploaded, refresh the timestamp, and store
the updated record in place. -/
def putBreakingNews (doc : Document) (id : Nat) (body : BreakingNewsBody)
    (files : List UploadFile) (videoOracle thumbOracle : Except String String)
    (nowIso : String) : ApiResponse BreakingNews × Document :=
  match firstRejection breakingNewsFileFilter files with
  | some m => (.middlewareError m, doc)
  | none =>
    match findIdxElem doc.breakingNews (fun b => b.id == id) with
    | none => (.err 404 "Breaking news not found" none, doc)
    | some (idx, existing) =>
      let videoRes : Except String String :=
        match firstField files "video" with
        | none => .ok (strOr (some existing.videoUrl) "")
        | some _ => uploadToCloudinary videoOracle
      match videoRes with
      | .error m => (.err 500 "Failed to upload video" (some m), doc)
      | .ok videoUrl =>
        let thumbRes : Except String String :=
          match firstField files "thumbnail" with
          | none => .ok (strOr (some existing.thumbnail) "")
          | some _ => uploadToCloudinary thumbOracle
        match thumbRes with
        | .error m => (.err 500 "Failed to upload thumbnail" (some m), doc)
        | .ok thumbnailUrl =>
          let updated : BreakingNews :=
            { existing with
              headline := ifProvided body.headline existing.headline,
              shortDescription := ifProvided body.shortDescription existing.shortDescription,
              fullDescription := ifProvided body.fullDescription existing.fullDescription,
              category := ifProvided body.category existing.category,
              state := ifProvided body.state existing.state,
              youtubeUrl := ifProvidedStr body.youtubeUrl existing.youtubeUrl,
              videoUrl := videoUrl, thumbnail := thumbnailUrl, timestamp := nowIso }
          (.ok 200 updated, { doc with breakingNews := doc.breakingNews.set idx updated })

/-- DELETE /api/breaking-news/:id: 404 when the id is absent, otherwise
splice out the first record with that id. -/
def deleteBreakingNews (doc : Document) (id : Nat) : ApiResponse Bool × Document :=
  match findIdxElem doc.breakingNews (fun b => b.id == id) with
  | none => (.err 404 "Breaking news not found" none, doc)
  | some (idx, _) =>
    (.ok 200 true, { doc with breakingNews := doc.breakingNews.eraseIdx idx })

/-- The text fields of the featured-story POST and PUT bodies. -/
structure FeaturedStoryBody where
  title : Option String
  description : Option String
  content : Option String
  category : Option String
  state : Option String
  excerpt : Option String
  priority : Option String
deriving Repr, DecidableEq

/-- GET /api/featured-stories. -/
def getFeaturedStories (doc : Document) : ApiResponse (List FeaturedStory) × Document :=
  (.ok 200 doc.featuredStories, doc)

/-- POST /api/featured-stories: filter and upload the optional image (an
upload failure answers 500 with nothing persisted), push the new record at
the end of featuredStories and persist, then log an activity built from
`title.substring(0, 50)` — when the body has no title that call throws after
the push was already persisted, and the catch answers 500. -/
def postFeaturedStories (doc : Document) (body : FeaturedStoryBody)
    (file : Option UploadFile) (oracle : Except String String)
    (now : Nat) (nowIso : String) : ApiResponse FeaturedStory × Document :=
  match firstRejection posterFileFilter file.toList with
  | some m => (.middlewareError m, doc)
  | none =>
    let imageRes : Except String String :=
      match file with
      | none => .ok ""
      | some _ => uploadToCloudinary oracle
    match imageRes with
    | .error m => (.err 500 "Failed to upload image" (some m), doc)
    | .ok imageUrl =>
      let newStory : FeaturedStory :=
        { id := now, title := body.title, description := body.description,
          content := jsOrOpt body.content body.description,
          category := body.category, state := body.state,
          excerpt := jsOrOpt body.excerpt body.description,
          imageUrl := imageUrl,
          priority := match body.priority with
            | none => some 1
            | some s => if s = "" then some 1 else jsNumber s,
          views := "0", timestamp := nowIso }
      let doc1 := { doc with featuredStories := doc.featuredStories ++ [newStory] }
      match body.title with
      | none => (.err 500 "Failed to create featured story" (some undefinedSubstringMsg), doc1)
      | some t =>
        let doc2 := logActivity doc1 "featured-story"
          ("New featured story published: \"" ++ truncTitle t ++ "\"")
          "Admin User" "published" now nowIso
        (.ok 201 newStory, doc2)

/-- PUT /api/featured-stories/:id: 404 when the id is absent; otherwise the
body's title, description, category and state overwrite the stored values
unconditionally (undefined when omitted), content and excerpt fall back to
the body's description, imageUrl is kept unless a new file is uploaded,
priority is kept when the body's is falsy, and the record is stored and
persisted; the activity log then reads `title.substring`, which throws when
the title was omitted, so the catch answers 500 after the clobbered record
was already persisted. -/
def putFeaturedStories (doc : Document) (id : Nat) (body : FeaturedStoryBody)
    (file : Option UploadFile) (oracle : Except String String)
    (nowIso : String) (actNow : Nat) : ApiResponse FeaturedStory × Document :=
  match firstRejection posterFileFilter file.toList with
  | some m => (.middlewareError m, doc)
  | none =>
    match findIdxElem doc.featuredStories (fun s => s.id == id) with
    | none => (.err 404 "Featured story not found" none, doc)
    | some (idx, existing) =>
      let imageRes : Except String String :=
        match file with
        | none => .ok existing.imageUrl
        | some _ => uploadToCloudinary oracle
      match imageRes with
      | .error m => (.err 500 "Failed to upload image" (some m), doc)
      | .ok imageUrl =>
        let updated : FeaturedStory :=
          { existing with
            title := body.title, description := body.description,
            content := jsOrOpt body.content body.description,
            category := body.category, state := body.state,
            excerpt := jsOrOpt body.excerpt body.description,
            imageUrl := imageUrl,
            priority := match body.priority with
              | none => existing.priority
              | some s => if s = "" then existing.priority else jsNumber s,
            timestamp := nowIso }
        let doc1 := { doc with featuredStories := doc.featuredStories.set idx updated }
        match body.title with
        | none => (.err 500 "Failed to update featured story" (some undefinedSubstringMsg), doc1)
        | some t =>
          let doc2 := logActivity doc1 "featured-story"
            ("Featured story updated: \"" ++ truncTitle t ++ "\"")
            "Admin User" "updated" actNow nowIso
          (.ok 200 updated, doc2)

/-- DELETE /api/featured-stories/:id: 404 when the id is absent; otherwise
splice out the first record with that id and persist, then log an activity
from the deleted record's title — when that title is undefined the
`substring` call throws and the catch answers 500, after the deletion was
already persisted. -/
def deleteFeaturedStories (doc : Document) (id : Nat) (actNow : Nat)
    (actIso : String) : ApiResponse Bool × Document :=
  match findIdxElem doc.featuredStories (fun s => s.id == id) with
  | none => (.err 404 "Featured story not found" none, doc)
  | some (idx, deletedStory) =>
    let doc1 := { doc with featuredStories := doc.featuredStories.eraseIdx idx }
    match deletedStory.title with
    | none => (.err 500 "Failed to delete featured story" none, doc1)
    | some t =>
      let doc2 := logActivity doc1 "featured-story"
        ("Featured story deleted: \"" ++ truncTitle t ++ "\"")
        "Admin User" "deleted" actNow actIso
      (.ok 200 true, doc2)

/-- The text fields of the news POST and PUT bodies. -/
structure NewsBody where
  title : Option String
  content : Option String
  category : Option String
  imageUrl : Option String
deriving Repr, DecidableEq

/-- GET /api/news. -/
def getNews (doc : Document) : ApiResponse (List NewsArticle) × Document :=
  (.ok 200 doc.news, doc)

/-- POST /api/news: prefer a truthy body imageUrl, otherwise upload the
optional file (failure is caught as a bare 500 with nothing persisted); push
the record and persist, then log an activity from `title.substring`, which
throws when the title was omitted (500 after the push was persisted). -/
def postNews (doc : Document) (body : NewsBody) (file : Option UploadFile)
    (oracle : Except String String) (now : Nat) (nowIso : String) :
    ApiResponse NewsArticle × Document :=
  match firstRejection posterFileFilter file.toList with
  | some m => (.middlewareError m, doc)
  | none =>
    let imageRes : Except String String :=
      match jsOrOpt body.imageUrl none with
      | some s => .ok s
      | none =>
        match file with
        | none => .ok ""
        | some _ => uploadToCloudinary oracle
    match imageRes with
    | .error _ => (.err 500 "Failed to add news" none, doc)
    | .ok imageUrl =>
      let newNews : NewsArticle :=
        { id := now, title := body.title, content := body.content,
          category := body.category, imageUrl := imageUrl, timestamp := nowIso }
      let doc1 := { doc with news := doc.news ++ [newNews] }
      match body.title with
      | none => (.err 500 "Failed to add news" none, doc1)
      | some t =>
        let doc2 := logActivity doc1 "news"
          ("New article published: \"" ++ truncTitle t ++ "\"")
          "Admin User" "published" now nowIso
        (.ok 200 newNews, doc2)

/-- PUT /api/news/:id: 404 when the id is absent; each body field falls back
to the stored value when falsy (omitted or empty), the image comes from a
new upload if present, else a truthy body imageUrl, else the stored one; the
activity log reads the updated title, throwing when it is undefined (500
after the update was persisted). -/
def putNews (doc : Document) (id : Nat) (body : NewsBody) (file : Option UploadFile)
    (oracle : Except String String) (nowIso : String) (actNow : Nat) :
    ApiResponse NewsArticle × Document :=
  match firstRejection posterFileFilter file.toList with
  | some m => (.middlewareError m, doc)
  | none =>
    match findIdxElem doc.news (fun n => n.id == id) with
    | none => (.err 404 "News not found" none, doc)
    | some (idx, existing) =>
      let imageRes : Except String String :=
        match file with
        | none => .ok (strOr body.imageUrl existing.imageUrl)
        | some _ => uploadToCloudinary oracle
      match imageRes with
      | .error _ => (.err 500 "Failed to update news" none, doc)
      | .ok finalImageUrl =>
        let updated : NewsArticle :=
          { existing with
            title := jsOrOpt body.title existing.title,
            content := jsOrOpt body.content existing.content,
            category := jsOrOpt body.category existing.category,
            imageUrl := finalImageUrl, timestamp := nowIso }
        let doc1 := { doc with news := doc.news.set idx updated }
        match updated.title with
        | none => (.err 500 "Failed to update news" none, doc1)
        | some t =>
          let doc2 := logActivity doc1 "news"
            ("Article updated: \"" ++ truncTitle t ++ "\"")
            "Admin User" "updated" actNow nowIso
          (.ok 200 updated, doc2)

/-- DELETE /api/news/:id: 404 when the id is absent; otherwise splice out
the first record with that id and persist, then log an activity from the
deleted record's title (a throw when it is undefined answers 500 after the
deletion was persisted). -/
def deleteNews (doc : Document) (id : Nat) (actNow : Nat) (actIso : String) :
    ApiResponse Bool × Document :=
  match findIdxElem doc.news (fun n => n.id == id) with
  | none => (.err 404 "News not found" none, doc)
  | some (idx, deletedNews) =>
    let doc1 := { doc with news := doc.news.eraseIdx idx }
    match deletedNews.title with
    | none => (.err 500 "Failed to delete news" none, doc1)
    | some t =>
      let doc2 := logActivity doc1 "news"
        ("Article deleted: \"" ++ truncTitle t ++ "\"")
        "Admin User" "deleted" actNow actIso
      (.ok 200 true, doc2)

/-- The text fields of the media POST body. -/
structure MediaBody where
  title : Option String
  description : Option String
deriving Repr, DecidableEq

/-- POST /api/media: 400 when no file is attached; otherwise upload it (a
failure is caught as a bare 500 with nothing persisted) and push the new
record. -/
def postMedia (doc : Document) (body : MediaBody) (file : Option UploadFile)
    (oracle : Except String String) (now : Nat) (nowIso : String) :
    ApiResponse Media × Document :=
  match firstRejection posterFileFilter file.toList with
  | some m => (.middlewareError m, doc)
  | none =>
    match file with
    | none => (.err 400 "No file uploaded" none, doc)
    | some f =>
      match uploadToCloudinary oracle with
      | .error _ => (.err 500 "Failed to upload media" none, doc)
      | .ok fileUrl =>
        let newMedia : Media :=
          { id := now, title := body.title, description := body.description,
            url := fileUrl, type := f.mimetype, timestamp := nowIso }
        (.ok 200 newMedia, { doc with media := doc.media ++ [newMedia] })

/-- The text fields of the ads POST body. -/
structure AdBody where
  title : Option String
  placement : Option String
  startDate : Option String
  endDate : Option String
  url : Option String
deriving Repr, DecidableEq

/-- POST /api/ads: upload the optional image (a failure is caught as a bare
500 with nothing persisted) and push the new record. -/
def postAds (doc : Document) (body : AdBody) (file : Option UploadFile)
    (oracle : Except String String) (now : Nat) (nowIso : String) :
    ApiResponse Ad × Document :=
  match firstRejection posterFileFilter file.toList with
  | some m => (.middlewareError m, doc)
  | none =>
    let imageRes : Except String String :=
      match file with
      | none => .ok ""
      | some _ => uploadToCloudinary oracle
    match imageRes with
    | .error _ => (.err 500 "Failed to add advertisement" none, doc)
    | .ok imageUrl =>
      let newAd : Ad :=
        { id := now, title := body.title, placement := body.placement,
          imageUrl := imageUrl, url := body.url, startDate := body.startDate,
          endDate := body.endDate, active := true, timestamp := nowIso }
      (.ok 200 newAd, { doc with ads := doc.ads ++ [newAd] })

/-- GET /api/activities: `data.activities || []`. -/
def getActivities (doc : Document) : ApiResponse (List Activity) × Document :=
  (.ok 200 (doc.activities.getD []), doc)

/-- The text fields of the categories POST body. -/
structure CategoryBody where
  name : Option String
  description : Option String
deriving Repr, DecidableEq

/-- POST /api/categories: push a new record. -/
def postCategories (doc : Document) (body : CategoryBody) (now : Nat)
    (nowIso : String) : ApiResponse Category × Document :=
  let newCategory : Category :=
    { id := now, name := body.name, description := body.description, timestamp := nowIso }
  (.ok 200 newCategory, { doc with categories := doc.categories ++ [newCategory] })

/-- The text fields of the static-pages POST body. -/
structure StaticPageBody where
  title : Option String
  content : Option String
  slug : Option String
deriving Repr, DecidableEq

/-- POST /api/static-pages: push a new record. -/
def postStaticPages (doc : Document) (body : StaticPageBody) (now : Nat)
    (nowIso : String) : ApiResponse StaticPage × Document :=
  let newPage : StaticPage :=
    { id := now, title := body.title, content := body.content, slug := body.slug,
      timestamp := nowIso }
  (.ok 200 newPage, { doc with staticPages := doc.staticPages ++ [newPage] })

/-- The text fields of the tickers POST body. -/
structure TickerBody where
  text : Option String
  type : Option String
deriving Repr, DecidableEq

/-- POST /api/tickers: push a new record with active set to true. -/
def postTickers (doc : Document) (body : TickerBody) (now : Nat)
    (nowIso : String) : ApiResponse Ticker × Document :=
  let newTicker : Ticker :=
    { id := now, text := body.text, type := body.type, active := true,
      timestamp := nowIso }
  (.ok 200 newTicker, { doc with tickers := doc.tickers ++ [newTicker] })

/-- The text fields of the users POST body. -/
structure UserBody where
  username : Option String
  password : Option String
  role : Option String
  email : Option String
deriving Repr, DecidableEq

/-- POST /api/users: 400 when the username already exists in the current
snapshot, otherwise push the record and answer it with the password
stripped. -/
def postUsers (doc : Document) (body : UserBody) (now : Nat) (nowIso : String) :
    ApiResponse User × Document :=
  if doc.users.any (fun u => u.username == body.username) then
    (.err 400 "Username already exists" none, doc)
  else
    let newUser : User :=
      { id := now, username := body.username, password := body.password,
        role := body.role, email := body.email, timestamp := nowIso }
    (.ok 200 { newUser with password := none }, { doc with users := doc.users ++ [newUser] })

/-- GET /api/users: every outbound user has the password overwritten by
`undefined`. -/
def getUsers (doc : Document) : ApiResponse (List User) × Document :=
  (.ok 200 (doc.users.map (fun u => { u with password := none })), doc)

/-- One mutating request of the server applied to the stored document; the
GET routes never write, so the documents a run of the server can store are
exactly the ones reachable through these steps. -/
inductive Step : Document → Document → Prop where
  | posters (d : Document) (req : PostersRequest) (o1 o2 o3 : Except String String) :
      Step d (postPosters d req o1 o2 o3).2
  | bnPost (d : Document) (body : BreakingNewsBody) (files : List UploadFile)
      (vo thO : Except String String) (now : Nat) (iso : String) :
      Step d (postBreakingNews d body files vo thO now iso).2
  | bnPut (d : Document) (id : Nat) (body : BreakingNewsBody) (files : List UploadFile)
      (vo thO : Except String String) (iso : String) :
      Step d (putBreakingNews d id body files vo thO iso).2
  | bnDelete (d : Document) (id : Nat) : Step d (deleteBreakingNews d id).2
  | fsPost (d : Document) (body : FeaturedStoryBody) (file : Option UploadFile)
      (o : Except String String) (now : Nat) (iso : String) :
      Step d (postFeaturedStories d body file o now iso).2
  | fsPut (d : Document) (id : Nat) (body : FeaturedStoryBody) (file : Option UploadFile)
      (o : Except String String) (iso : String) (actNow : Nat) :
      Step d (putFeaturedStories d id body file o iso actNow).2
  | fsDelete (d : Document) (id : Nat) (actNow : Nat) (actIso : String) :
      Step d (deleteFeaturedStories d id actNow actIso).2
  | newsPost (d : Document) (body : NewsBody) (file : Option UploadFile)
      (o : Except String String) (now : Nat) (iso : String) :
      Step d (postNews d body file o now iso).2
  | newsPut (d : Document) (id : Nat) (body : NewsBody) (file : Option UploadFile)
      (o : Except String String) (iso : String) (actNow : Nat) :
      Step d (putNews d id body file o iso actNow).2
  | newsDelete (d : Document) (id : Nat) (actNow : Nat) (actIso : String) :
      Step d (deleteNews d id actNow actIso).2
  | mediaPost (d : Document) (body : MediaBody) (file : Option UploadFile)
      (o : Except String String) (now : Nat) (iso : String) :
      Step d (postMedia d body file o now iso).2
  | adsPost (d : Document) (body : AdBody) (file : Option UploadFile)
      (o : Except String String) (now : Nat) (iso : String) :
      Step d (postAds d body file o now iso).2
  | categoriesPost (d : Document) (body : CategoryBody) (now : Nat) (iso : String) :
      Step d (postCategories d body now iso).2
  | staticPagesPost (d : Document) (body : StaticPageBody) (now : Nat) (iso : String) :
      Step d (postStaticPages d body now iso).2
  | tickersPost (d : Document) (body : TickerBody) (now : Nat) (iso : String) :
      Step d (postTickers d body now iso).2
  | usersPost (d : Document) (body : UserBody) (now : Nat) (iso : String) :
      Step d (postUsers d body now iso).2

/-- The documents the server can ever hold: the fresh document of a missing
data file, closed under the mutating requests. -/
inductive Reachable : Document → Prop where
  | init : Reachable (readData none)
  | step {d d' : Document} : Reachable d → Step d d' → Reachable d'

/-- One logActivity call's inputs, with its clock readings. -/
structure ActivityInput where
  type : String
  title : String
  user : String
  status : String
  now : Nat
  nowIso : String
deriving Repr, DecidableEq

/-- The activity record a logActivity call constructs. -/
def mkActivity (e : ActivityInput) : Activity :=
  { id := e.now, type := e.type, title := e.title, user := e.user,
    status := e.status, timestamp := e.nowIso }

/-- Run one logActivity call from its packaged inputs. -/
def applyLog (doc : Document) (e : ActivityInput) : Document :=
  logActivity doc e.type e.title e.user e.status e.now e.nowIso

/-- Run a sequence of logActivity calls in order. -/
def applyLogs (doc : Document) (es : List ActivityInput) : Document :=
  es.foldl applyLog doc

section SharedLemmas

/-- Truncation to n entries absorbs an inner truncation to n past an
append. -/
theorem take_append_take {α : Type} (l m : List α) (n : Nat) :
    (l ++ m.take n).take n = (l ++ m).take n := by
  rw [List.take_append_eq_append_take, List.take_append_eq_append_take, List.take_take]
  rw [Nat.min_eq_left (Nat.sub_le n l.length)]

/-- A prefix of the haystack is contained in it. -/
theorem listContains_of_isPrefixOf {hay needle : List Char}
    (h : needle.isPrefixOf hay = true) : listContains hay needle = true := by
  cases hay with
  | nil =>
    cases needle with
    | nil => rfl
    | cons c t => simp [List.isPrefixOf] at h
  | cons c t => simp [listContains, h]

/-- Any infix placed between two other lists is contained in the whole. -/
theorem listContains_append (x s y : List Char) :
    listContains (x ++ (s ++ y)) s = true := by
  induction x with
  | nil =>
    simp only [List.nil_append]
    apply listContains_of_isPrefixOf
    rw [List.isPrefixOf_iff_prefix]
    exact List.prefix_append s y
  | cons c t ih =>
    simp only [List.cons_append]
    unfold listContains
    rw [ih]
    simp

/-- The middle part of a three-way string concatenation is a substring of
the whole. -/
theorem strContains_mid (a b c : String) : strContains (a ++ b ++ c) b = true := by
  unfold strContains
  rw [String.data_append, String.data_append, List.append_assoc]
  exact listContains_append a.data b.data c.data

/-- findIndex misses when no element satisfies the predicate. -/
theorem findIdxElem_eq_none {α : Type} {p : α → Bool} :
    ∀ {l : List α}, (∀ x ∈ l, p x = false) → findIdxElem l p = none := by
  intro l
  induction l with
  | nil => intro _; rfl
  | cons a t ih =>
    intro h
    unfold findIdxElem
    rw [h a (List.mem_cons_self a t)]
    simp only [Bool.false_eq_true, if_false]
    rw [ih (fun x hx => h x (List.mem_cons_of_mem a hx))]
    rfl

/-- What a findIndex hit means: the element is at that index and satisfies
the predicate. -/
theorem findIdxElem_some {α : Type} {p : α → Bool} :
    ∀ {l : List α} {i : Nat} {x : α}, findIdxElem l p = some (i, x) →
      l[i]? = some x ∧ p x = true := by
  intro l
  induction l with
  | nil => intro i x h; simp [findIdxElem] at h
  | cons a t ih =>
    intro i x h
    unfold findIdxElem at h
    by_cases hpa : p a
    · rw [if_pos hpa] at h
      obtain ⟨hi, hx⟩ : i = 0 ∧ a = x := by
        have := Option.some.inj h
        exact ⟨(Prod.mk.injEq _ _ _ _ ▸ this).1.symm, (Prod.mk.injEq _ _ _ _ ▸ this).2⟩
      subst hi; subst hx
      exact ⟨by simp, hpa⟩
    · rw [if_neg hpa] at h
      cases hft : findIdxElem t p with
      | none => rw [hft] at h; exact Option.noConfusion h
      | some q =>
        rw [hft] at h
        simp only [Option.map_some', Option.some.injEq] at h
        obtain ⟨hi, hx⟩ := Prod.mk.injEq _ _ _ _ ▸ h
        subst hx
        have hq := ih hft
        rw [← hi]
        simpa using hq

/-- Erasing the element findIndex found lowers the predicate count by one. -/
theorem countP_eraseIdx_findIdxElem {α : Type} {p : α → Bool} :
    ∀ {l : List α} {i : Nat} {x : α}, findIdxElem l p = some (i, x) →
      (l.eraseIdx i).countP p + 1 = l.countP p := by
  intro l
  induction l with
  | nil => intro i x h; simp [findIdxElem] at h
  | cons a t ih =>
    intro i x h
    unfold findIdxElem at h
    by_cases hpa : p a
    · rw [if_pos hpa] at h
      have hi : i = 0 := by
        have := Option.some.inj h
        exact ((Prod.mk.injEq _ _ _ _ ▸ this).1).symm
      subst hi
      simp [List.countP_cons, hpa]
    · rw [if_neg hpa] at h
      cases hft : findIdxElem t p with
      | none => rw [hft] at h; exact Option.noConfusion h
      | some q =>
        rw [hft] at h
        simp only [Option.map_some', Option.some.injEq] at h
        have hi : i = q.1 + 1 := ((Prod.mk.injEq _ _ _ _ ▸ h).1).symm
        subst hi
        simp only [List.eraseIdx_cons_succ, List.countP_cons, hpa]
        have := ih (x := q.2) (by rw [hft])
        simp only [Bool.false_eq_true, if_false, Nat.add_zero]
        omega

/-- The fold of logActivity over a nonempty batch: the batch's records,
newest first, pushed onto the previous log, truncated to 50. -/
theorem applyLogs_activities :
    ∀ (es : List ActivityInput) (doc : Document), es ≠ [] →
      (applyLogs doc es).activities =
        some (((es.map mkActivity).reverse ++ doc.activities.getD []).take 50) := by
  intro es
  induction es with
  | nil => intro doc h; exact absurd rfl h
  | cons e t ih =>
    intro doc _
    show (applyLogs (applyLog doc e) t).activities = _
    by_cases ht : t = []
    · subst ht
      show (applyLog doc e).activities = _
      simp [applyLog, logActivity, mkActivity]
    · rw [ih (applyLog doc e) ht]
      have hacts : (applyLog doc e).activities =
          some ((mkActivity e :: doc.activities.getD []).take 50) := rfl
      rw [hacts, Option.getD_some, take_append_take]
      simp [List.append_assoc]

end SharedLemmas

/-- C1 (counterexample): on a missing data file, readData's document has no
activities collection at all — `activities` is absent, not an empty
sequence, falsifying the claim that all eleven named collections come back
initialized to empty ordered sequences. -/
theorem c1_counterexample :
    (readData none).activities = none ∧ (readData none).activities ≠ some [] := by
  exact ⟨rfl, by simp [readData, initialDocument]⟩

/-- C1 (amended): on a missing data file, readData returns a document in
which ten of the spec's eleven collections (posters, breakingNews,
featuredStories, categories, users, media, news, staticPages, tickers, ads)
are present and empty, plus an extra empty `tools` collection; the
`activities` collection is absent (it is created lazily by logActivity). -/
theorem c1_initial_collections :
    (readData none).posters = [] ∧ (readData none).breakingNews = [] ∧
    (readData none).featuredStories = [] ∧ (readData none).categories = [] ∧
    (readData none).users = [] ∧ (readData none).media = [] ∧
    (readData none).news = [] ∧ (readData none).staticPages = [] ∧
    (readData none).tickers = [] ∧ (readData none).ads = [] ∧
    (readData none).tools = [] ∧ (readData none).activities = none :=
  ⟨rfl, rfl, rfl, rfl, rfl, rfl, rfl, rfl, rfl, rfl, rfl, rfl⟩

/-- C8: login succeeds exactly when some stored user matches the request's
username and password; on success the answered user is a stored match with
the password stripped; on any failure the result is the single constant
Unauthorized value, carrying no information about which check failed. -/
theorem c8_login_exact_match (doc : Document) (username password : Option String) :
    ((∃ pu, login doc username password = .success pu) ↔
      ∃ u ∈ doc.users, u.username = username ∧ u.password = password)
    ∧ (∀ pu, login doc username password = .success pu →
        ∃ u ∈ doc.users, u.username = username ∧ u.password = password ∧
          pu = { u with password := none })
    ∧ ((¬∃ u ∈ doc.users, u.username = username ∧ u.password = password) →
        login doc username password = .invalid) := by
  unfold login
  cases h : doc.users.find? (fun u => u.username == username && u.password == password) with
  | none =>
    have hnone := List.find?_eq_none.mp h
    refine ⟨⟨fun ⟨pu, hpu⟩ => by simp at hpu, fun ⟨u, hu, h1, h2⟩ => ?_⟩,
      fun pu hpu => by simp at hpu, fun _ => rfl⟩
    exact absurd (by simp [h1, h2]) (hnone u hu)
  | some u =>
    have hpred := List.find?_some h
    have hmem := List.mem_of_find?_eq_some h
    simp only [Bool.and_eq_true, beq_iff_eq] at hpred
    refine ⟨⟨fun _ => ⟨u, hmem, hpred.1, hpred.2⟩, fun _ => ⟨_, rfl⟩⟩,
      fun pu hpu => ⟨u, hmem, hpred.1, hpred.2, (LoginResult.success.inj hpu).symm⟩,
      fun hno => absurd ⟨u, hmem, hpred.1, hpred.2⟩ hno⟩

/-- A concrete user store for the C8 witness. -/
def c8User : User :=
  { id := 1, username := some "admin", password := some "pw",
    role := some "admin", email := none, timestamp := "t" }

/-- The document holding only the C8 witness user. -/
def c8Doc : Document := { initialDocument with users := [c8User] }

/-- Witness for C8: a wrong password and an unknown username both produce
the same Unauthorized constant, and the right credentials produce the
stored user with the password stripped. -/
theorem c8_login_exact_match_witness :
    login c8Doc (some "admin") (some "wrongpass") = .invalid ∧
    login c8Doc (some "nouser") (some "x") = .invalid ∧
    login c8Doc (some "admin") (some "pw") = .success { c8User with password := none } := by
  refine ⟨?_, ?_, ?_⟩
  · exact (c8_login_exact_match c8Doc (some "admin") (some "wrongpass")).2.2 (by decide)
  · exact (c8_login_exact_match c8Doc (some "nouser") (some "x")).2.2 (by decide)
  · rcases (c8_login_exact_match c8Doc (some "admin") (some "pw")).1.mpr
      ⟨c8User, by decide, rfl, rfl⟩ with ⟨pu, hpu⟩
    rcases (c8_login_exact_match c8Doc (some "admin") (some "pw")).2.1 pu hpu with
      ⟨u, hu, hun, hpw, hstrip⟩
    have : u = c8User := by
      rcases List.mem_singleton.mp hu
      rfl
    rw [hpu, hstrip, this]

/-- C5: every logActivity call stores the fresh record at the front of the
previous log truncated to 50, so the log never exceeds 50 entries; and any
60 sequential logged mutations leave exactly the 50 most recent records,
newest first, whatever the log held before. -/
theorem c5_activity_log_bounded :
    (∀ (doc : Document) (type title user status : String) (now : Nat) (nowIso : String),
      (logActivity doc type title user status now nowIso).activities =
        some (({ id := now, type := type, title := title, user := user,
                 status := status, timestamp := nowIso } :: doc.activities.getD []).take 50)
      ∧ ∀ l, (logActivity doc type title user status now nowIso).activities = some l →
          l.length ≤ 50)
    ∧ (∀ (doc : Document) (es : List ActivityInput), es.length = 60 →
        (applyLogs doc es).activities = some ((es.map mkActivity).reverse.take 50)
        ∧ ∀ l, (applyLogs doc es).activities = some l → l.length = 50) := by
  constructor
  · intro doc type title user status now nowIso
    have hX : (logActivity doc type title user status now nowIso).activities =
        some (({ id := now, type := type, title := title, user := user,
                 status := status, timestamp := nowIso } :: doc.activities.getD []).take 50) := rfl
    refine ⟨hX, fun l hl => ?_⟩
    rw [hX] at hl
    rw [← Option.some.inj hl, List.length_take]
    exact Nat.min_le_left _ _
  · intro doc es hlen
    have hne : es ≠ [] := by
      intro h; rw [h] at hlen; simp at hlen
    have hmain := applyLogs_activities es doc hne
    have hrevlen : (es.map mkActivity).reverse.length = 60 := by
      rw [List.length_reverse, List.length_map, hlen]
    have heq : ((es.map mkActivity).reverse ++ doc.activities.getD []).take 50 =
        (es.map mkActivity).reverse.take 50 := by
      rw [List.take_append_eq_append_take, hrevlen]
      norm_num
    constructor
    · rw [hmain, heq]
    · intro l hl
      rw [hmain, heq] at hl
      have := Option.some.inj hl
      rw [← this, List.length_take, hrevlen]
      norm_num

/-- Any one step either leaves the posters collection unchanged (every
route except POST /api/posters, and its failure branches) or stores exactly
3 posters (a successful POST /api/posters). -/
theorem Step.posters_shape {d d' : Document} (h : Step d d') :
    d'.posters = d.posters ∨ d'.posters.length = 3 := by
  cases h with
  | posters req o1 o2 o3 =>
    unfold postPosters
    repeat' (first | split | (dsimp only; split))
    all_goals first | exact Or.inl rfl | exact Or.inr rfl
  | bnPost body files vo thO now iso =>
    left; unfold postBreakingNews
    repeat' (first | split | (dsimp only; split))
    all_goals rfl
  | bnPut id body files vo thO iso =>
    left; unfold putBreakingNews
    repeat' (first | split | (dsimp only; split))
    all_goals rfl
  | bnDelete id =>
    left; unfold deleteBreakingNews
    repeat' (first | split | (dsimp only; split))
    all_goals rfl
  | fsPost body file o now iso =>
    left; unfold postFeaturedStories
    repeat' (first | split | (dsimp only; split))
    all_goals rfl
  | fsPut id body file o iso actNow =>
    left; unfold putFeaturedStories
    repeat' (first | split | (dsimp only; split))
    all_goals rfl
  | fsDelete id actNow actIso =>
    left; unfold deleteFeaturedStories
    repeat' (first | split | (dsimp only; split))
    all_goals rfl
  | newsPost body file o now iso =>
    left; unfold postNews
    repeat' (first | split | (dsimp only; split))
    all_goals rfl
  | newsPut id body file o iso actNow =>
    left; unfold putNews
    repeat' (first | split | (dsimp only; split))
    all_goals rfl
  | newsDelete id actNow actIso =>
    left; unfold deleteNews
    repeat' (first | split | (dsimp only; split))
    all_goals rfl
  | mediaPost body file o now iso =>
    left; unfold postMedia
    repeat' (first | split | (dsimp only; split))
    all_goals rfl
  | adsPost body file o now iso =>
    left; unfold postAds
    repeat' (first | split | (dsimp only; split))
    all_goals rfl
  | categoriesPost body now iso => exact Or.inl rfl
  | staticPagesPost body now iso => exact Or.inl rfl
  | tickersPost body now iso => exact Or.inl rfl
  | usersPost body now iso =>
    left; unfold postUsers
    repeat' (first | split | (dsimp only; split))
    all_goals rfl

/-- In every reachable document the posters collection is either still
empty or holds exactly the 3 records of the last successful POST. -/
theorem reachable_posters_shape {d : Document} (h : Reachable d) :
    d.posters = [] ∨ d.posters.length = 3 := by
  induction h with
  | init => exact Or.inl rfl
  | step _ hS ih =>
    rcases Step.posters_shape hS with heq | h3
    · rw [heq]; exact ih
    · exact Or.inr h3

/-- C3: on every document the server can reach, GET /api/posters answers
exactly 3 poster entries, and every entry that was not stored (a padding
placeholder) has empty title, image and link and an id among 1..3. -/
theorem c3_posters_list_exactly_three {d : Document} (h : Reachable d) :
    getPosters d = (.ok 200 (padPosters d.posters), d) ∧
    (padPosters d.posters).length = 3 ∧
      ∀ p ∈ padPosters d.posters, p ∉ d.posters →
        p.title = "" ∧ p.image = "" ∧ p.link = "" ∧ (p.id = 1 ∨ p.id = 2 ∨ p.id = 3) := by
  refine ⟨rfl, ?_, ?_⟩
  · rcases reachable_posters_shape h with h0 | h3
    · rw [h0]; rfl
    · have h1 : padOnce d.posters = d.posters := by
        unfold padOnce; rw [if_neg (by omega)]
      unfold padPosters; rw [h1, h1, h1, h3]
  · rcases reachable_posters_shape h with h0 | h3
    · intro p hp _
      rw [h0] at hp
      have hpad0 : padPosters ([] : List Poster) =
          [{ id := 1, title := "", image := "", link := "" },
           { id := 2, title := "", image := "", link := "" },
           { id := 3, title := "", image := "", link := "" }] := rfl
      rw [hpad0] at hp
      simp only [List.mem_cons, List.not_mem_nil, or_false] at hp
      rcases hp with h | h | h
      · subst h; exact ⟨rfl, rfl, rfl, Or.inl rfl⟩
      · subst h; exact ⟨rfl, rfl, rfl, Or.inr (Or.inl rfl)⟩
      · subst h; exact ⟨rfl, rfl, rfl, Or.inr (Or.inr rfl)⟩
    · intro p hp hnp
      have h1 : padOnce d.posters = d.posters := by
        unfold padOnce; rw [if_neg (by omega)]
      have : padPosters d.posters = d.posters := by
        unfold padPosters; rw [h1, h1, h1]
      rw [this] at hp
      exact absurd hp hnp

/-- Witness for C3: on the fresh document of a missing data file, GET
/api/posters answers 3 all-empty placeholder entries with ids 1..3. -/
theorem c3_posters_list_exactly_three_witness :
    getPosters (readData none) =
      (.ok 200 (padPosters (readData none).posters), readData none) ∧
    (padPosters (readData none).posters).length = 3 ∧
    padPosters (readData none).posters =
      [{ id := 1, title := "", image := "", link := "" },
       { id := 2, title := "", image := "", link := "" },
       { id := 3, title := "", image := "", link := "" }] := by
  obtain ⟨h1, h2, _⟩ := c3_posters_list_exactly_three Reachable.init
  exact ⟨h1, h2, by decide⟩

/-- The second part of a four-way concatenation is a substring of the
whole. -/
theorem strContains_concat4_second (a b c d : String) :
    strContains (a ++ b ++ c ++ d) b = true := by
  unfold strContains
  have h : (a ++ b ++ c ++ d).data = a.data ++ (b.data ++ (c.data ++ d.data)) := by
    simp [String.data_append, List.append_assoc]
  rw [h]
  exact listContains_append a.data b.data (c.data ++ d.data)

/-- The last part of a four-way concatenation is a substring of the
whole. -/
theorem strContains_concat4_fourth (a b c d : String) :
    strContains (a ++ b ++ c ++ d) d = true := by
  unfold strContains
  have h : (a ++ b ++ c ++ d).data = (a.data ++ b.data ++ c.data) ++ (d.data ++ []) := by
    simp [String.data_append, List.append_assoc]
  rw [h]
  exact listContains_append (a.data ++ b.data ++ c.data) d.data []

/-- C7: a file is admitted only when both its (lowercased) extension and
its declared MIME type pass the field's allow-list test — for posterUpload
the image lists, for breakingNewsUpload a matched video pair or a matched
image pair; every rejection message names the offending MIME type and
extension; an .exe file with MIME application/octet-stream is rejected by
both filters; and a rejected file makes each upload route answer the
middleware error with the document untouched, for every possible transport
outcome — so no network call can influence the response. -/
theorem c7_upload_admission_policy :
    (∀ f : UploadFile, posterFileFilter f = .accept ↔
      (testAny ["jpeg", "jpg", "png", "gif", "webp", "avif"]
          (lowerString (extname f.originalname)) = true ∧
        testAny ["image/jpeg", "image/jpg", "image/png", "image/gif", "image/webp", "image/avif"]
          f.mimetype = true))
    ∧ (∀ f m, posterFileFilter f = .reject m →
        strContains m f.mimetype = true ∧
        strContains m (lowerString (extname f.originalname)) = true)
    ∧ (∀ f : UploadFile, breakingNewsFileFilter f = .accept ↔
      ((testAny ["mp4", "mov", "avi", "wmv"] (lowerString (extname f.originalname)) = true ∧
          testAny ["video/mp4", "video/quicktime", "video/avi", "video/x-msvideo"]
            f.mimetype = true)
        ∨ (testAny ["jpeg", "jpg", "png", "gif", "webp"]
            (lowerString (extname f.originalname)) = true ∧
          testAny ["image/jpeg", "image/jpg", "image/png", "image/gif", "image/webp"]
            f.mimetype = true)))
    ∧ (∀ f m, breakingNewsFileFilter f = .reject m →
        strContains m f.mimetype = true ∧
        strContains m (lowerString (extname f.originalname)) = true)
    ∧ posterFileFilter ⟨"image", "malware.exe", "application/octet-stream"⟩ ≠ .accept
    ∧ breakingNewsFileFilter ⟨"video", "malware.exe", "application/octet-stream"⟩ ≠ .accept
    ∧ (∀ doc body f o now iso m, posterFileFilter f = .reject m →
        postFeaturedStories doc body (some f) o now iso = (.middlewareError m, doc))
    ∧ (∀ doc body files m vo thO now iso,
        firstRejection breakingNewsFileFilter files = some m →
        postBreakingNews doc body files vo thO now iso = (.middlewareError m, doc))
    ∧ (∀ doc id body files m vo thO iso,
        firstRejection breakingNewsFileFilter files = some m →
        putBreakingNews doc id body files vo thO iso = (.middlewareError m, doc))
    ∧ (∀ doc id body f o iso actNow m, posterFileFilter f = .reject m →
        putFeaturedStories doc id body (some f) o iso actNow = (.middlewareError m, doc))
    ∧ (∀ doc body f o now iso m, posterFileFilter f = .reject m →
        postMedia doc body (some f) o now iso = (.middlewareError m, doc))
    ∧ (∀ doc body f o now iso m, posterFileFilter f = .reject m →
        postNews doc body (some f) o now iso = (.middlewareError m, doc))
    ∧ (∀ doc id body f o iso actNow m, posterFileFilter f = .reject m →
        putNews doc id body (some f) o iso actNow = (.middlewareError m, doc))
    ∧ (∀ doc body f o now iso m, posterFileFilter f = .reject m →
        postAds doc body (some f) o now iso = (.middlewareError m, doc))
    ∧ (∀ doc req f m o1 o2 o3, req.file1 = some f → posterFileFilter f = .reject m →
        postPosters doc req o1 o2 o3 = (.middlewareError m, doc)) := by
  have hsingle : ∀ (filter : UploadFile → FilterResult) (f : UploadFile) (m : String),
      filter f = .reject m → firstRejection filter (some f).toList = some m := by
    intro filter f m hf
    simp [firstRejection, Option.toList, hf]
  refine ⟨?_, ?_, ?_, ?_, by decide, by decide, ?_, ?_, ?_, ?_, ?_, ?_, ?_, ?_, ?_⟩
  · intro f
    unfold posterFileFilter
    dsimp only
    split
    · next h => exact iff_of_true rfl (Bool.and_eq_true _ _ ▸ h)
    · next h =>
      refine iff_of_false (by simp) (fun hb => h ?_)
      rw [hb.1, hb.2]; rfl
  · intro f m h
    unfold posterFileFilter at h
    dsimp only at h
    split at h
    · exact FilterResult.noConfusion h
    · have hm := (FilterResult.reject.inj h).symm
      subst hm
      exact ⟨strContains_concat4_second _ _ _ _, strContains_concat4_fourth _ _ _ _⟩
  · intro f
    unfold breakingNewsFileFilter
    dsimp only
    split
    · next h =>
      refine iff_of_true rfl ?_
      rcases Bool.or_eq_true _ _ ▸ h with hv | hi
      · exact Or.inl (Bool.and_eq_true _ _ ▸ hv)
      · exact Or.inr (Bool.and_eq_true _ _ ▸ hi)
    · next h =>
      refine iff_of_false (by simp) (fun hb => h ?_)
      rcases hb with ⟨h1, h2⟩ | ⟨h1, h2⟩
      · rw [h1, h2]; rfl
      · rw [h1, h2]; simp
  · intro f m h
    unfold breakingNewsFileFilter at h
    dsimp only at h
    split at h
    · exact FilterResult.noConfusion h
    · have hm := (FilterResult.reject.inj h).symm
      subst hm
      exact ⟨strContains_concat4_second _ _ _ _, strContains_concat4_fourth _ _ _ _⟩
  · intro doc body f o now iso m hf
    unfold postFeaturedStories
    rw [hsingle _ _ _ hf]
  · intro doc body files m vo thO now iso hm
    unfold postBreakingNews
    rw [hm]
  · intro doc id body files m vo thO iso hm
    unfold putBreakingNews
    rw [hm]
  · intro doc id body f o iso actNow m hf
    unfold putFeaturedStories
    rw [hsingle _ _ _ hf]
  · intro doc body f o now iso m hf
    unfold postMedia
    rw [hsingle _ _ _ hf]
  · intro doc body f o now iso m hf
    unfold postNews
    rw [hsingle _ _ _ hf]
  · intro doc id body f o iso actNow m hf
    unfold putNews
    rw [hsingle _ _ _ hf]
  · intro doc body f o now iso m hf
    unfold postAds
    rw [hsingle _ _ _ hf]
  · intro doc req f m o1 o2 o3 hfile hf
    unfold postPosters
    have : presentFiles [req.file1, req.file2, req.file3] =
        f :: presentFiles [req.file2, req.file3] := by
      simp [presentFiles, hfile]
    rw [this]
    have : firstRejection posterFileFilter (f :: presentFiles [req.file2, req.file3]) =
        some m := by
      unfold firstRejection
      rw [hf]
    rw [this]

/-- The rejected executable of the C7 witness. -/
def c7ExeFile : UploadFile :=
  { fieldname := "image", originalname := "malware.exe",
    mimetype := "application/octet-stream" }

/-- The message posterUpload's filter produces for the C7 witness file. -/
def c7Msg : String :=
  "Invalid file type. Only JPEG, JPG, PNG, GIF, WebP, and AVIF are allowed. Got: application/octet-stream with extension: .exe"

/-- An empty featured-story body for the C7 witness. -/
def c7Body : FeaturedStoryBody :=
  { title := none, description := none, content := none, category := none,
    state := none, excerpt := none, priority := none }

/-- Witness for C7: the concrete .exe upload is rejected with a message
naming its MIME type and extension, and the create route answers that
middleware error with the document untouched whether the transport would
have succeeded or failed. -/
theorem c7_upload_admission_policy_witness :
    (posterFileFilter c7ExeFile = .reject c7Msg ∧
      strContains c7Msg "application/octet-stream" = true ∧
      strContains c7Msg ".exe" = true) ∧
    postFeaturedStories initialDocument c7Body (some c7ExeFile) (.ok "https://cdn/x")
      1 "t" = (.middlewareError c7Msg, initialDocument) ∧
    postFeaturedStories initialDocument c7Body (some c7ExeFile) (.error "network down")
      1 "t" = (.middlewareError c7Msg, initialDocument) := by
  have hf : posterFileFilter c7ExeFile = .reject c7Msg := by decide
  have hcontains := c7_upload_admission_policy.2.1 c7ExeFile c7Msg hf
  refine ⟨⟨hf, ?_, ?_⟩, ?_, ?_⟩
  · exact hcontains.1
  · exact hcontains.2
  · exact c7_upload_admission_policy.2.2.2.2.2.2.1 initialDocument c7Body c7ExeFile
      (.ok "https://cdn/x") 1 "t" c7Msg hf
  · exact c7_upload_admission_policy.2.2.2.2.2.2.1 initialDocument c7Body c7ExeFile
      (.error "network down") 1 "t" c7Msg hf

/-- C4: whenever the transport fails for an admitted attached file, the
whole create answers an error with the input document returned unchanged —
no partial record is persisted.  In particular a POST /api/breaking-news
whose video upload fails answers HTTP 500 and a subsequent GET
/api/breaking-news still shows exactly the old collection. -/
theorem c4_upload_failure_aborts :
    (∀ doc body files vo thO now iso m,
      firstRejection breakingNewsFileFilter files = none →
      (firstField files "video").isSome = true →
      vo = .error m →
      postBreakingNews doc body files vo thO now iso =
        (.err 500 "Failed to upload video"
          (some ("Failed to upload to Cloudinary: " ++ m)), doc))
    ∧ (∀ doc body files vo thO now iso m,
        firstRejection breakingNewsFileFilter files = none →
        (firstField files "video").isSome = true →
        vo = .error m →
        (getBreakingNews (postBreakingNews doc body files vo thO now iso).2).1 =
          .ok 200 doc.breakingNews)
    ∧ (∀ doc body files vo thO now iso m,
        firstRejection breakingNewsFileFilter files = none →
        firstField files "video" = none →
        (firstField files "thumbnail").isSome = true →
        thO = .error m →
        postBreakingNews doc body files vo thO now iso =
          (.err 500 "Failed to upload thumbnail"
            (some ("Failed to upload to Cloudinary: " ++ m)), doc))
    ∧ (∀ doc body f o now iso m,
        posterFileFilter f = .accept →
        o = .error m →
        postFeaturedStories doc body (some f) o now iso =
          (.err 500 "Failed to upload image"
            (some ("Failed to upload to Cloudinary: " ++ m)), doc))
    ∧ (∀ doc req f o1 o2 o3 m,
        req.file1 = some f →
        firstRejection posterFileFilter (presentFiles [req.file1, req.file2, req.file3]) = none →
        o1 = .error m →
        postPosters doc req o1 o2 o3 =
          (.err 500 ("Failed to update posters: " ++ ("Failed to upload to Cloudinary: " ++ m))
            none, doc))
    ∧ (∀ doc body f o now iso m,
        posterFileFilter f = .accept →
        o = .error m →
        postMedia doc body (some f) o now iso = (.err 500 "Failed to upload media" none, doc))
    ∧ (∀ doc body f o now iso m,
        posterFileFilter f = .accept →
        jsOrOpt body.imageUrl none = none →
        o = .error m →
        postNews doc body (some f) o now iso = (.err 500 "Failed to add news" none, doc))
    ∧ (∀ doc body f o now iso m,
        posterFileFilter f = .accept →
        o = .error m →
        postAds doc body (some f) o now iso =
          (.err 500 "Failed to add advertisement" none, doc)) := by
  have hsingleNone : ∀ (filter : UploadFile → FilterResult) (f : UploadFile),
      filter f = .accept → firstRejection filter [f] = none := by
    intro filter f hf
    simp [firstRejection, hf]
  have hbn : ∀ doc body files vo thO now iso m,
      firstRejection breakingNewsFileFilter files = none →
      (firstField files "video").isSome = true →
      vo = .error m →
      postBreakingNews doc body files vo thO now iso =
        (.err 500 "Failed to upload video"
          (some ("Failed to upload to Cloudinary: " ++ m)), doc) := by
    intro doc body files vo thO now iso m hfil hvid hvo
    obtain ⟨f, hf⟩ := Option.isSome_iff_exists.mp hvid
    subst hvo
    simp [postBreakingNews, hfil, hf, uploadToCloudinary]
  refine ⟨hbn, ?_, ?_, ?_, ?_, ?_, ?_, ?_⟩
  · intro doc body files vo thO now iso m hfil hvid hvo
    rw [hbn doc body files vo thO now iso m hfil hvid hvo]
    rfl
  · intro doc body files vo thO now iso m hfil hvid hthumb hthO
    obtain ⟨f, hf⟩ := Option.isSome_iff_exists.mp hthumb
    subst hthO
    simp [postBreakingNews, hfil, hvid, hf, uploadToCloudinary]
  · intro doc body f o now iso m hacc ho
    subst ho
    simp [postFeaturedStories, hsingleNone posterFileFilter f hacc, uploadToCloudinary]
  · intro doc req f o1 o2 o3 m hfile hfil ho
    subst ho
    rw [hfile] at hfil
    simp [postPosters, hfil, slotUploadedImage, hfile, uploadToCloudinary]
  · intro doc body f o now iso m hacc ho
    subst ho
    simp [postMedia, hsingleNone posterFileFilter f hacc, uploadToCloudinary]
  · intro doc body f o now iso m hacc hurl ho
    subst ho
    simp [postNews, hsingleNone posterFileFilter f hacc, hurl, uploadToCloudinary]
  · intro doc body f o now iso m hacc ho
    subst ho
    simp [postAds, hsingleNone posterFileFilter f hacc, uploadToCloudinary]

/-- One pre-existing breaking-news record for the C4 witness document. -/
def c4Existing : BreakingNews :=
  { id := 1, headline := some "old", shortDescription := none, fullDescription := none,
    category := some "world", state := none, videoUrl := "", thumbnail := "",
    youtubeUrl := "", timestamp := "t0" }

/-- The C4 witness document: one breaking-news record already stored. -/
def c4Doc : Document := { initialDocument with breakingNews := [c4Existing] }

/-- The C4 witness request body. -/
def c4Body : BreakingNewsBody :=
  { headline := some "new clip", shortDescription := none, fullDescription := none,
    category := none, state := none, youtubeUrl := none }

/-- The admitted video file of the C4 witness. -/
def c4Video : UploadFile :=
  { fieldname := "video", originalname := "clip.mp4", mimetype := "video/mp4" }

/-- Witness for C4: the concrete failing video upload answers 500 and the
stored collection still holds exactly the old record. -/
theorem c4_upload_failure_aborts_witness :
    postBreakingNews c4Doc c4Body [c4Video] (.error "socket hang up") (.ok "u") 9 "t1" =
      (.err 500 "Failed to upload video"
        (some ("Failed to upload to Cloudinary: " ++ "socket hang up")), c4Doc) ∧
    (getBreakingNews (postBreakingNews c4Doc c4Body [c4Video] (.error "socket hang up")
        (.ok "u") 9 "t1").2).1 = .ok 200 [c4Existing] := by
  constructor
  · exact c4_upload_failure_aborts.1 c4Doc c4Body [c4Video] (.error "socket hang up")
      (.ok "u") 9 "t1" "socket hang up" (by decide) (by decide) rfl
  · exact c4_upload_failure_aborts.2.1 c4Doc c4Body [c4Video] (.error "socket hang up")
      (.ok "u") 9 "t1" "socket hang up" (by decide) (by decide) rfl

/-- The record a POST /api/breaking-news without files stores: defaulted
empty videoUrl and thumbnail, youtubeUrl defaulted to the empty string, id
from the clock. -/
def bnFresh (body : BreakingNewsBody) (now : Nat) (iso : String) : BreakingNews :=
  { id := now, headline := body.headline, shortDescription := body.shortDescription,
    fullDescription := body.fullDescription, category := body.category,
    state := body.state, videoUrl := "", thumbnail := "",
    youtubeUrl := strOr body.youtubeUrl "", timestamp := iso }

/-- The record a POST /api/featured-stories without a file stores: empty
imageUrl, priority defaulted to 1 when falsy, views the string 0, content
and excerpt falling back to the description. -/
def fsFresh (body : FeaturedStoryBody) (now : Nat) (iso : String) : FeaturedStory :=
  { id := now, title := body.title, description := body.description,
    content := jsOrOpt body.content body.description, category := body.category,
    state := body.state, excerpt := jsOrOpt body.excerpt body.description,
    imageUrl := "",
    priority := match body.priority with
      | none => some 1
      | some s => if s = "" then some 1 else jsNumber s,
    views := "0", timestamp := iso }

/-- C9: a file-less breaking-news create prepends exactly the fresh record
(id from the clock, empty videoUrl, thumbnail and defaulted youtubeUrl) and
answers it; a file-less featured-story create with a title appends exactly
the fresh record (id from the clock, empty imageUrl, priority defaulted to
1 when missing, views the string 0) at the end and answers it with status
201. -/
theorem c9_create_defaults_and_ordering :
    (∀ doc body (files : List UploadFile) vo thO now iso,
      firstRejection breakingNewsFileFilter files = none →
      firstField files "video" = none →
      firstField files "thumbnail" = none →
      postBreakingNews doc body files vo thO now iso =
        (.ok 200 (bnFresh body now iso),
          { doc with breakingNews := bnFresh body now iso :: doc.breakingNews }))
    ∧ (∀ body now iso, (bnFresh body now iso).id = now ∧
        (bnFresh body now iso).videoUrl = "" ∧ (bnFresh body now iso).thumbnail = "" ∧
        (body.youtubeUrl = none → (bnFresh body now iso).youtubeUrl = "") ∧
        (bnFresh body now iso).headline = body.headline ∧
        (bnFresh body now iso).timestamp = iso)
    ∧ (∀ doc body o now iso t, body.title = some t →
        postFeaturedStories doc body none o now iso =
          (.ok 201 (fsFresh body now iso),
            logActivity
              { doc with featuredStories := doc.featuredStories ++ [fsFresh body now iso] }
              "featured-story"
              ("New featured story published: \"" ++ truncTitle t ++ "\"")
              "Admin User" "published" now iso))
    ∧ (∀ doc body o now iso t, body.title = some t →
        (postFeaturedStories doc body none o now iso).2.featuredStories =
          doc.featuredStories ++ [fsFresh body now iso])
    ∧ (∀ body now iso, (fsFresh body now iso).id = now ∧
        (fsFresh body now iso).imageUrl = "" ∧
        (body.priority = none → (fsFresh body now iso).priority = some 1) ∧
        (fsFresh body now iso).views = "0" ∧
        (fsFresh body now iso).title = body.title ∧
        (fsFresh body now iso).timestamp = iso) := by
  have hfs : ∀ (doc : Document) (body : FeaturedStoryBody) (o : Except String String)
      (now : Nat) (iso t : String), body.title = some t →
      postFeaturedStories doc body none o now iso =
        (.ok 201 (fsFresh body now iso),
          logActivity
            { doc with featuredStories := doc.featuredStories ++ [fsFresh body now iso] }
            "featured-story"
            ("New featured story published: \"" ++ truncTitle t ++ "\"")
            "Admin User" "published" now iso) := by
    intro doc body o now iso t ht
    simp [postFeaturedStories, firstRejection, ht, fsFresh]
  refine ⟨?_, ?_, hfs, ?_, ?_⟩
  · intro doc body files vo thO now iso hfil hvid hthumb
    simp [postBreakingNews, hfil, hvid, hthumb, bnFresh, strOr]
  · intro body now iso
    refine ⟨rfl, rfl, rfl, ?_, rfl, rfl⟩
    intro hy
    simp [bnFresh, hy, strOr]
  · intro doc body o now iso t ht
    rw [hfs doc body o now iso t ht]
    rfl
  · intro body now iso
    refine ⟨rfl, rfl, ?_, rfl, rfl, rfl⟩
    intro hp
    simp [fsFresh, hp]

/-- The C9 witness bodies. -/
def c9BnBody : BreakingNewsBody :=
  { headline := some "quake", shortDescription := some "s", fullDescription := some "f",
    category := some "world", state := some "up", youtubeUrl := none }

/-- The C9 witness featured-story body. -/
def c9FsBody : FeaturedStoryBody :=
  { title := some "Hello", description := some "d", content := none,
    category := some "life", state := none, excerpt := none, priority := none }

/-- Witness for C9 at concrete requests: the breaking-news record is
prepended with empty defaults and the featured story is appended with
priority 1 and views 0. -/
theorem c9_create_defaults_and_ordering_witness :
    postBreakingNews initialDocument c9BnBody [] (.ok "u") (.ok "v") 5 "t" =
      (.ok 200 (bnFresh c9BnBody 5 "t"),
        { initialDocument with breakingNews := [bnFresh c9BnBody 5 "t"] }) ∧
    (bnFresh c9BnBody 5 "t").videoUrl = "" ∧
    (bnFresh c9BnBody 5 "t").youtubeUrl = "" ∧
    (postFeaturedStories initialDocument c9FsBody none (.ok "u") 6 "t2").2.featuredStories =
      [fsFresh c9FsBody 6 "t2"] ∧
    (fsFresh c9FsBody 6 "t2").priority = some 1 ∧
    (fsFresh c9FsBody 6 "t2").views = "0" := by
  refine ⟨?_, ?_, ?_, ?_, ?_, ?_⟩
  · exact c9_create_defaults_and_ordering.1 initialDocument c9BnBody [] (.ok "u") (.ok "v")
      5 "t" rfl rfl rfl
  · exact (c9_create_defaults_and_ordering.2.1 c9BnBody 5 "t").2.1
  · exact (c9_create_defaults_and_ordering.2.1 c9BnBody 5 "t").2.2.2.1 rfl
  · exact c9_create_defaults_and_ordering.2.2.2.1 initialDocument c9FsBody (.ok "u")
      6 "t2" "Hello" rfl
  · exact (c9_create_defaults_and_ordering.2.2.2.2 c9FsBody 6 "t2").2.2.1 rfl
  · exact (c9_create_defaults_and_ordering.2.2.2.2 c9FsBody 6 "t2").2.2.2.1

/-- A successful POST /api/posters can only come out of the success branch:
the three slot uploads all succeeded and the answered list is exactly the
three freshly built slot records, which also become the whole stored
posters collection. -/
theorem postPosters_ok {doc : Document} {req : PostersRequest}
    {o1 o2 o3 : Except String String} {ps : List Poster} {doc' : Document}
    (h : postPosters doc req o1 o2 o3 = (.ok 200 ps, doc')) :
    ∃ i1 i2 i3, slotUploadedImage req.slot1 req.file1 o1 = .ok i1 ∧
      slotUploadedImage req.slot2 req.file2 o2 = .ok i2 ∧
      slotUploadedImage req.slot3 req.file3 o3 = .ok i3 ∧
      ps = [mkPosterSlot 1 req.slot1 i1, mkPosterSlot 2 req.slot2 i2,
        mkPosterSlot 3 req.slot3 i3] ∧
      doc' = { doc with posters := ps } := by
  unfold postPosters at h
  cases hr : firstRejection posterFileFilter (presentFiles [req.file1, req.file2, req.file3]) with
  | some m => rw [hr] at h; exact absurd h (by simp)
  | none =>
    rw [hr] at h
    cases hs1 : slotUploadedImage req.slot1 req.file1 o1 with
    | error m => rw [hs1] at h; exact absurd h (by simp)
    | ok i1 =>
      rw [hs1] at h
      cases hs2 : slotUploadedImage req.slot2 req.file2 o2 with
      | error m => rw [hs2] at h; exact absurd h (by simp)
      | ok i2 =>
        rw [hs2] at h
        cases hs3 : slotUploadedImage req.slot3 req.file3 o3 with
        | error m => rw [hs3] at h; exact absurd h (by simp)
        | ok i3 =>
          rw [hs3] at h
          dsimp only at h
          rw [Prod.mk.injEq] at h
          obtain ⟨h1, h2⟩ := h
          injection h1 with _ hbody
          exact ⟨i1, i2, i3, rfl, rfl, rfl, hbody.symm, by rw [h2.symm, hbody]⟩

/-- C10: every successful POST /api/posters persists exactly the three
records it answers, with ids 1, 2, 3; a slot with no title, link, imageUrl
or file in the request becomes the all-empty record, erasing whatever that
slot held before; and the answered list depends only on the request and the
upload outcomes, never on the previously stored posters. -/
theorem c10_post_posters_replaces_collection :
    ∀ doc req o1 o2 o3 ps doc',
      postPosters doc req o1 o2 o3 = (.ok 200 ps, doc') →
      doc' = { doc with posters := ps } ∧
      ps.length = 3 ∧
      ps.map (fun p => p.id) = [1, 2, 3] ∧
      (req.slot1.title = none → req.slot1.link = none → req.slot1.imageUrl = none →
        req.file1 = none → ps[0]? = some { id := 1, title := "", image := "", link := "" }) ∧
      (req.slot2.title = none → req.slot2.link = none → req.slot2.imageUrl = none →
        req.file2 = none → ps[1]? = some { id := 2, title := "", image := "", link := "" }) ∧
      (req.slot3.title = none → req.slot3.link = none → req.slot3.imageUrl = none →
        req.file3 = none → ps[2]? = some { id := 3, title := "", image := "", link := "" }) ∧
      (∀ docB psB docB', postPosters docB req o1 o2 o3 = (.ok 200 psB, docB') → psB = ps) := by
  intro doc req o1 o2 o3 ps doc' h
  obtain ⟨i1, i2, i3, hs1, hs2, hs3, hps, hdoc⟩ := postPosters_ok h
  have hslot : ∀ (slot : PosterSlotBody) (o : Except String String) (i : String),
      slot.title = none → slot.link = none → slot.imageUrl = none →
      slotUploadedImage slot none o = .ok i →
      mkPosterSlot 1 slot i = { id := 1, title := "", image := "", link := "" } ∧
      mkPosterSlot 2 slot i = { id := 2, title := "", image := "", link := "" } ∧
      mkPosterSlot 3 slot i = { id := 3, title := "", image := "", link := "" } := by
    intro slot o i ht hl hu hok
    rw [slotUploadedImage, hu] at hok
    have hi : i = "" := by
      have := Except.ok.inj hok
      simp [strOr] at this
      exact this.symm
    subst hi
    simp [mkPosterSlot, ht, hl, strOr]
  subst hps
  refine ⟨hdoc, rfl, rfl, ?_, ?_, ?_, ?_⟩
  · intro ht hl hu hf
    rw [hf] at hs1
    simp [(hslot req.slot1 o1 i1 ht hl hu hs1).1]
  · intro ht hl hu hf
    rw [hf] at hs2
    simp [(hslot req.slot2 o2 i2 ht hl hu hs2).2.1]
  · intro ht hl hu hf
    rw [hf] at hs3
    simp [(hslot req.slot3 o3 i3 ht hl hu hs3).2.2]
  · intro docB psB docB' hB
    obtain ⟨j1, j2, j3, ht1, ht2, ht3, hpsB, _⟩ := postPosters_ok hB
    rw [hpsB]
    have e1 : j1 = i1 := Except.ok.inj (ht1.symm.trans hs1)
    have e2 : j2 = i2 := Except.ok.inj (ht2.symm.trans hs2)
    have e3 : j3 = i3 := Except.ok.inj (ht3.symm.trans hs3)
    rw [e1, e2, e3]

/-- The C10 witness: a store already holding poster content, and a request
that resupplies only slot 2. -/
def c10Doc : Document :=
  { initialDocument with posters :=
      [{ id := 1, title := "old1", image := "img1", link := "l1" },
       { id := 2, title := "old2", image := "img2", link := "l2" },
       { id := 3, title := "old3", image := "img3", link := "l3" }] }

/-- The C10 witness request: only slot 2 carries data, no files. -/
def c10Req : PostersRequest :=
  { slot1 := { title := none, link := none, imageUrl := none },
    slot2 := { title := some "new2", link := some "nl2", imageUrl := some "nu2" },
    slot3 := { title := none, link := none, imageUrl := none },
    file1 := none, file2 := none, file3 := none }

/-- Witness for C10: the stored posters become exactly the three answered
records; the unsupplied slots 1 and 3 are erased to all-empty records even
though they held content before. -/
theorem c10_post_posters_replaces_collection_witness :
    (postPosters c10Doc c10Req (.ok "x") (.ok "y") (.ok "z")).2 =
      { c10Doc with posters :=
        [{ id := 1, title := "", image := "", link := "" },
         { id := 2, title := "new2", image := "nu2", link := "nl2" },
         { id := 3, title := "", image := "", link := "" }] } ∧
    (postPosters c10Doc c10Req (.ok "x") (.ok "y") (.ok "z")).2.posters.map
      (fun p => p.id) = [1, 2, 3] := by
  have h : postPosters c10Doc c10Req (.ok "x") (.ok "y") (.ok "z") =
      (.ok 200
        [{ id := 1, title := "", image := "", link := "" },
         { id := 2, title := "new2", image := "nu2", link := "nl2" },
         { id := 3, title := "", image := "", link := "" }],
        { c10Doc with posters :=
          [{ id := 1, title := "", image := "", link := "" },
           { id := 2, title := "new2", image := "nu2", link := "nl2" },
           { id := 3, title := "", image := "", link := "" }] }) := by decide
  obtain ⟨hdoc, _, hids, _, _, _, _⟩ :=
    c10_post_posters_replaces_collection c10Doc c10Req (.ok "x") (.ok "y") (.ok "z") _ _ h
  constructor
  · rw [h]
  · rw [h]; exact hids

/-- Keeping a string through JS `x || -'-'-`: the identity. -/
theorem strOr_some_empty (v : String) : strOr (some v) "" = v := by
  by_cases h : v = "" <;> simp [strOr, h]

/-- The record a file-less PUT /api/breaking-news/:id stores: each body
field keeps the stored value unless provided, url fields are kept, the
timestamp is refreshed. -/
def bnUpdated (existing : BreakingNews) (body : BreakingNewsBody) (iso : String) :
    BreakingNews :=
  { existing with
    headline := ifProvided body.headline existing.headline,
    shortDescription := ifProvided body.shortDescription existing.shortDescription,
    fullDescription := ifProvided body.fullDescription existing.fullDescription,
    category := ifProvided body.category existing.category,
    state := ifProvided body.state existing.state,
    youtubeUrl := ifProvidedStr body.youtubeUrl existing.youtubeUrl,
    videoUrl := existing.videoUrl, thumbnail := existing.thumbnail,
    timestamp := iso }

/-- The record a file-less PUT /api/news/:id stores: each body field falls
back to the stored value when omitted or empty. -/
def newsUpdated (existing : NewsArticle) (body : NewsBody) (iso : String) : NewsArticle :=
  { existing with
    title := jsOrOpt body.title existing.title,
    content := jsOrOpt body.content existing.content,
    category := jsOrOpt body.category existing.category,
    imageUrl := strOr body.imageUrl existing.imageUrl,
    timestamp := iso }

/-- The record a file-less PUT /api/featured-stories/:id stores: title,
description, category and state are overwritten with the body's values even
when absent; content and excerpt fall back to the body's description;
imageUrl is kept; priority is kept when the body's is falsy. -/
def fsUpdated (existing : FeaturedStory) (body : FeaturedStoryBody) (iso : String) :
    FeaturedStory :=
  { existing with
    title := body.title, description := body.description,
    content := jsOrOpt body.content body.description,
    category := body.category, state := body.state,
    excerpt := jsOrOpt body.excerpt body.description,
    imageUrl := existing.imageUrl,
    priority := match body.priority with
      | none => existing.priority
      | some s => if s = "" then existing.priority else jsNumber s,
    timestamp := iso }

/-- The stored featured story of the C2 counterexample. -/
def c2Story : FeaturedStory :=
  { id := 7, title := some "A", description := some "d", content := some "c",
    category := some "cat", state := some "s", excerpt := some "e",
    imageUrl := "img", priority := some 2, views := "0", timestamp := "t0" }

/-- The C2 counterexample document. -/
def c2Doc : Document := { initialDocument with featuredStories := [c2Story] }

/-- The C2 counterexample request: it provides a new description and omits
the title. -/
def c2Body : FeaturedStoryBody :=
  { title := none, description := some "newdesc", content := none, category := none,
    state := none, excerpt := none, priority := none }

/-- C2 (counterexample): updating the stored featured story while omitting
the title does not keep the previous title — the persisted record's title
becomes undefined (and the request then fails with 500 from the activity
logger, after the clobbered record was persisted), falsifying the claim
that every omitted editable field keeps its previous value for every entity
kind with an update operation. -/
theorem c2_counterexample :
    c2Story.title = some "A" ∧
    ((putFeaturedStories c2Doc 7 c2Body none (.ok "") "t1" 99).2.featuredStories.map
      (fun s => s.title)) = [none] ∧
    ((putFeaturedStories c2Doc 7 c2Body none (.ok "") "t1" 99).2.featuredStories.map
      (fun s => s.description)) = [some "newdesc"] ∧
    (putFeaturedStories c2Doc 7 c2Body none (.ok "") "t1" 99).1 =
      .err 500 "Failed to update featured story" (some undefinedSubstringMsg) := by
  decide

/-- C2 (amended): file-less updates behave per entity kind — breaking news
replaces exactly the provided fields and keeps every omitted field
(refreshing only the timestamp); news keeps a field when it is omitted or
provided as the empty string and replaces it otherwise; featured stories
overwrite title, description, category and state with the request's values
even when omitted (undefined), keep imageUrl and a falsy priority, and
derive content and excerpt from the provided value or the new
description. -/
theorem c2_update_semantics :
    (∀ doc id body (vo thO : Except String String) iso i existing,
      findIdxElem doc.breakingNews (fun b => b.id == id) = some (i, existing) →
      putBreakingNews doc id body [] vo thO iso =
        (.ok 200 (bnUpdated existing body iso),
          { doc with breakingNews := doc.breakingNews.set i (bnUpdated existing body iso) }))
    ∧ (∀ e b iso, (bnUpdated e b iso).id = e.id ∧
        (bnUpdated e b iso).videoUrl = e.videoUrl ∧
        (bnUpdated e b iso).thumbnail = e.thumbnail ∧
        (b.headline = none → (bnUpdated e b iso).headline = e.headline) ∧
        (∀ s, b.headline = some s → (bnUpdated e b iso).headline = some s) ∧
        (b.shortDescription = none →
          (bnUpdated e b iso).shortDescription = e.shortDescription) ∧
        (∀ s, b.shortDescription = some s → (bnUpdated e b iso).shortDescription = some s) ∧
        (b.fullDescription = none →
          (bnUpdated e b iso).fullDescription = e.fullDescription) ∧
        (∀ s, b.fullDescription = some s → (bnUpdated e b iso).fullDescription = some s) ∧
        (b.category = none → (bnUpdated e b iso).category = e.category) ∧
        (∀ s, b.category = some s → (bnUpdated e b iso).category = some s) ∧
        (b.state = none → (bnUpdated e b iso).state = e.state) ∧
        (∀ s, b.state = some s → (bnUpdated e b iso).state = some s) ∧
        (b.youtubeUrl = none → (bnUpdated e b iso).youtubeUrl = e.youtubeUrl) ∧
        (∀ s, b.youtubeUrl = some s → (bnUpdated e b iso).youtubeUrl = s))
    ∧ (∀ doc id body (o : Except String String) iso actNow i existing,
        findIdxElem doc.news (fun n => n.id == id) = some (i, existing) →
        (putNews doc id body none o iso actNow).2.news =
          doc.news.set i (newsUpdated existing body iso))
    ∧ (∀ e b iso, (newsUpdated e b iso).id = e.id ∧
        (b.title = none → (newsUpdated e b iso).title = e.title) ∧
        (b.title = some "" → (newsUpdated e b iso).title = e.title) ∧
        (∀ s, s ≠ "" → b.title = some s → (newsUpdated e b iso).title = some s) ∧
        (b.content = none → (newsUpdated e b iso).content = e.content) ∧
        (b.category = none → (newsUpdated e b iso).category = e.category) ∧
        (b.imageUrl = none → (newsUpdated e b iso).imageUrl = e.imageUrl))
    ∧ (∀ doc id body (o : Except String String) iso actNow i existing,
        findIdxElem doc.featuredStories (fun s => s.id == id) = some (i, existing) →
        (putFeaturedStories doc id body none o iso actNow).2.featuredStories =
          doc.featuredStories.set i (fsUpdated existing body iso))
    ∧ (∀ doc id body (o : Except String String) iso actNow i existing,
        findIdxElem doc.featuredStories (fun s => s.id == id) = some (i, existing) →
        body.title = none →
        (putFeaturedStories doc id body none o iso actNow).1 =
          .err 500 "Failed to update featured story" (some undefinedSubstringMsg))
    ∧ (∀ e b iso, (fsUpdated e b iso).id = e.id ∧
        (fsUpdated e b iso).title = b.title ∧
        (fsUpdated e b iso).description = b.description ∧
        (fsUpdated e b iso).category = b.category ∧
        (fsUpdated e b iso).state = b.state ∧
        (fsUpdated e b iso).imageUrl = e.imageUrl ∧
        (fsUpdated e b iso).views = e.views ∧
        (b.priority = none → (fsUpdated e b iso).priority = e.priority)) := by
  refine ⟨?_, ?_, ?_, ?_, ?_, ?_, ?_⟩
  · intro doc id body vo thO iso i existing hfind
    simp [putBreakingNews, firstRejection, firstField, hfind, bnUpdated, strOr_some_empty]
  · intro e b iso
    refine ⟨rfl, rfl, rfl, ?_, ?_, ?_, ?_, ?_, ?_, ?_, ?_, ?_, ?_, ?_, ?_⟩ <;>
      first
        | (intro hnone; simp [bnUpdated, ifProvided, ifProvidedStr, hnone])
        | (intro s hs; simp [bnUpdated, ifProvided, ifProvidedStr, hs])
  · intro doc id body o iso actNow i existing hfind
    cases htitle : jsOrOpt body.title existing.title with
    | none =>
      simp [putNews, firstRejection, hfind, newsUpdated, htitle]
    | some t =>
      simp [putNews, firstRejection, hfind, newsUpdated, htitle, logActivity]
  · intro e b iso
    refine ⟨rfl, ?_, ?_, ?_, ?_, ?_, ?_⟩
    · intro hnone; simp [newsUpdated, jsOrOpt, hnone]
    · intro hempty; simp [newsUpdated, jsOrOpt, hempty]
    · intro s hs hsome; simp [newsUpdated, jsOrOpt, hsome, hs]
    · intro hnone; simp [newsUpdated, jsOrOpt, hnone]
    · intro hnone; simp [newsUpdated, jsOrOpt, hnone]
    · intro hnone; simp [newsUpdated, strOr, hnone]
  · intro doc id body o iso actNow i existing hfind
    cases htitle : body.title with
    | none =>
      simp [putFeaturedStories, firstRejection, hfind, fsUpdated, htitle]
    | some t =>
      simp [putFeaturedStories, firstRejection, hfind, fsUpdated, htitle, logActivity]
  · intro doc id body o iso actNow i existing hfind htitle
    simp [putFeaturedStories, firstRejection, hfind, htitle]
  · intro e b iso
    refine ⟨rfl, rfl, rfl, rfl, rfl, rfl, rfl, ?_⟩
    intro hnone; simp [fsUpdated, hnone]

/-- The stored breaking-news record of the C2 witness. -/
def c2wBn : BreakingNews :=
  { id := 3, headline := some "old", shortDescription := some "sd",
    fullDescription := some "fd", category := some "world", state := some "up",
    videoUrl := "v", thumbnail := "th", youtubeUrl := "yt", timestamp := "t0" }

/-- The C2 witness document. -/
def c2wDoc : Document := { initialDocument with breakingNews := [c2wBn] }

/-- The C2 witness request: it provides only a new headline. -/
def c2wBody : BreakingNewsBody :=
  { headline := some "NEW", shortDescription := none, fullDescription := none,
    category := none, state := none, youtubeUrl := none }

/-- Witness for the amended C2: a breaking-news update that provides only
the headline changes exactly the headline (and timestamp) and keeps every
other field. -/
theorem c2_update_semantics_witness :
    putBreakingNews c2wDoc 3 c2wBody [] (.ok "") (.ok "") "t9" =
      (.ok 200 (bnUpdated c2wBn c2wBody "t9"),
        { c2wDoc with breakingNews := [bnUpdated c2wBn c2wBody "t9"] }) ∧
    (bnUpdated c2wBn c2wBody "t9").headline = some "NEW" ∧
    (bnUpdated c2wBn c2wBody "t9").shortDescription = some "sd" ∧
    (bnUpdated c2wBn c2wBody "t9").videoUrl = "v" ∧
    (bnUpdated c2wBn c2wBody "t9").youtubeUrl = "yt" := by
  have hfind : findIdxElem c2wDoc.breakingNews (fun b => b.id == 3) = some (0, c2wBn) := by
    decide
  refine ⟨?_, ?_, ?_, ?_, ?_⟩
  · exact c2_update_semantics.1 c2wDoc 3 c2wBody (.ok "") (.ok "") "t9" 0 c2wBn hfind
  · exact (c2_update_semantics.2.1 c2wBn c2wBody "t9").2.2.2.2.1 "NEW" rfl
  · exact (c2_update_semantics.2.1 c2wBn c2wBody "t9").2.2.2.2.2.1 rfl
  · exact (c2_update_semantics.2.1 c2wBn c2wBody "t9").2.1
  · exact (c2_update_semantics.2.1 c2wBn c2wBody "t9").2.2.2.2.2.2.2.2.2.2.2.2.2.1 rfl

/-- When findIndex misses, no element satisfies the predicate. -/
theorem eq_false_of_findIdxElem_none {α : Type} {p : α → Bool} :
    ∀ {l : List α}, findIdxElem l p = none → ∀ x ∈ l, p x = false := by
  intro l
  induction l with
  | nil => intro _ x hx; exact absurd hx (List.not_mem_nil x)
  | cons a t ih =>
    intro h x hx
    unfold findIdxElem at h
    by_cases hpa : p a
    · rw [if_pos hpa] at h; exact Option.noConfusion h
    · rw [if_neg hpa] at h
      have ht : findIdxElem t p = none := Option.map_eq_none'.mp h
      rcases List.mem_cons.mp hx with hxa | hxt
      · rw [hxa]; exact Bool.eq_false_iff.mpr hpa
      · exact ih ht x hxt

/-- The body of the two C6 counterexample creates. -/
def c6Body : BreakingNewsBody :=
  { headline := some "h", shortDescription := none, fullDescription := none,
    category := none, state := none, youtubeUrl := none }

/-- The C6 counterexample document: two sequential breaking-news creates in
the same millisecond both get the timestamp-derived id 5. -/
def c6Doc : Document :=
  (postBreakingNews (postBreakingNews initialDocument c6Body [] (.ok "") (.ok "") 5 "t1").2
    c6Body [] (.ok "") (.ok "") 5 "t2").2

/-- C6 (counterexample): with two stored records sharing id 5 (reached by
two creates in the same millisecond), a successful delete of id 5 leaves a
record with id 5 in the list and a second delete of id 5 succeeds instead
of returning NotFound, falsifying the claim's consequents. -/
theorem c6_counterexample :
    (c6Doc.breakingNews.map (fun b => b.id)) = [5, 5] ∧
    (deleteBreakingNews c6Doc 5).1 = .ok 200 true ∧
    ((deleteBreakingNews c6Doc 5).2.breakingNews.map (fun b => b.id)) = [5] ∧
    (deleteBreakingNews (deleteBreakingNews c6Doc 5).2 5).1 = .ok 200 true := by
  decide

/-- C6 (amended): update and delete on an id that is absent answer
NotFound (404) and return the document unchanged, for breaking news,
featured stories and news alike; a successful delete removes exactly the
first stored record with the id; and when at most one record carries the
id, the id is gone after the delete and a second delete answers
NotFound — with duplicate timestamp-derived ids the id can survive one
delete and the second delete succeeds. -/
theorem c6_not_found_and_delete :
    (∀ doc id, (∀ b ∈ doc.breakingNews, b.id ≠ id) →
      deleteBreakingNews doc id = (.err 404 "Breaking news not found" none, doc))
    ∧ (∀ doc id body (vo thO : Except String String) iso,
        (∀ b ∈ doc.breakingNews, b.id ≠ id) →
        putBreakingNews doc id body [] vo thO iso =
          (.err 404 "Breaking news not found" none, doc))
    ∧ (∀ doc id a s, (∀ f ∈ doc.featuredStories, f.id ≠ id) →
        deleteFeaturedStories doc id a s = (.err 404 "Featured story not found" none, doc))
    ∧ (∀ doc id body (o : Except String String) iso actNow,
        (∀ f ∈ doc.featuredStories, f.id ≠ id) →
        putFeaturedStories doc id body none o iso actNow =
          (.err 404 "Featured story not found" none, doc))
    ∧ (∀ doc id a s, (∀ n ∈ doc.news, n.id ≠ id) →
        deleteNews doc id a s = (.err 404 "News not found" none, doc))
    ∧ (∀ doc id body (o : Except String String) iso actNow,
        (∀ n ∈ doc.news, n.id ≠ id) →
        putNews doc id body none o iso actNow = (.err 404 "News not found" none, doc))
    ∧ (∀ doc id i x, findIdxElem doc.breakingNews (fun b => b.id == id) = some (i, x) →
        deleteBreakingNews doc id =
          (.ok 200 true, { doc with breakingNews := doc.breakingNews.eraseIdx i }))
    ∧ (∀ doc id, doc.breakingNews.countP (fun b => b.id == id) ≤ 1 →
        (∀ b ∈ (deleteBreakingNews doc id).2.breakingNews, b.id ≠ id) ∧
        (deleteBreakingNews (deleteBreakingNews doc id).2 id).1 =
          .err 404 "Breaking news not found" none)
    ∧ (∀ doc id a1 s1 a2 s2, doc.featuredStories.countP (fun f => f.id == id) ≤ 1 →
        (∀ f ∈ (deleteFeaturedStories doc id a1 s1).2.featuredStories, f.id ≠ id) ∧
        (deleteFeaturedStories (deleteFeaturedStories doc id a1 s1).2 id a2 s2).1 =
          .err 404 "Featured story not found" none)
    ∧ (∀ doc id a1 s1 a2 s2, doc.news.countP (fun n => n.id == id) ≤ 1 →
        (∀ n ∈ (deleteNews doc id a1 s1).2.news, n.id ≠ id) ∧
        (deleteNews (deleteNews doc id a1 s1).2 id a2 s2).1 =
          .err 404 "News not found" none) := by
  refine ⟨?_, ?_, ?_, ?_, ?_, ?_, ?_, ?_, ?_, ?_⟩
  · intro doc id hmem
    have hnone : findIdxElem doc.breakingNews (fun b => b.id == id) = none :=
      findIdxElem_eq_none (fun b hb => by simpa using hmem b hb)
    simp [deleteBreakingNews, hnone]
  · intro doc id body vo thO iso hmem
    have hnone : findIdxElem doc.breakingNews (fun b => b.id == id) = none :=
      findIdxElem_eq_none (fun b hb => by simpa using hmem b hb)
    simp [putBreakingNews, firstRejection, hnone]
  · intro doc id a s hmem
    have hnone : findIdxElem doc.featuredStories (fun f => f.id == id) = none :=
      findIdxElem_eq_none (fun f hf => by simpa using hmem f hf)
    simp [deleteFeaturedStories, hnone]
  · intro doc id body o iso actNow hmem
    have hnone : findIdxElem doc.featuredStories (fun f => f.id == id) = none :=
      findIdxElem_eq_none (fun f hf => by simpa using hmem f hf)
    simp [putFeaturedStories, firstRejection, hnone]
  · intro doc id a s hmem
    have hnone : findIdxElem doc.news (fun n => n.id == id) = none :=
      findIdxElem_eq_none (fun n hn => by simpa using hmem n hn)
    simp [deleteNews, hnone]
  · intro doc id body o iso actNow hmem
    have hnone : findIdxElem doc.news (fun n => n.id == id) = none :=
      findIdxElem_eq_none (fun n hn => by simpa using hmem n hn)
    simp [putNews, firstRejection, hnone]
  · intro doc id i x hfind
    simp [deleteBreakingNews, hfind]
  · intro doc id hcount
    cases hfind : findIdxElem doc.breakingNews (fun b => b.id == id) with
    | none =>
      have hall := eq_false_of_findIdxElem_none hfind
      have h2 : (deleteBreakingNews doc id).2 = doc := by simp [deleteBreakingNews, hfind]
      refine ⟨?_, ?_⟩
      · rw [h2]; intro b hb; simpa using hall b hb
      · rw [h2]; simp [deleteBreakingNews, hfind]
    | some q =>
      obtain ⟨i, x⟩ := q
      have h2 : (deleteBreakingNews doc id).2 =
          { doc with breakingNews := doc.breakingNews.eraseIdx i } := by
        simp [deleteBreakingNews, hfind]
      have hc := countP_eraseIdx_findIdxElem hfind
      have hzero : (doc.breakingNews.eraseIdx i).countP (fun b => b.id == id) = 0 := by
        omega
      have hall := List.countP_eq_zero.mp hzero
      have hnone2 : findIdxElem (doc.breakingNews.eraseIdx i) (fun b => b.id == id) = none :=
        findIdxElem_eq_none (fun b hb => by simpa using hall b hb)
      refine ⟨?_, ?_⟩
      · rw [h2]; intro b hb; simpa using hall b hb
      · rw [h2]; simp [deleteBreakingNews, hnone2]
  · intro doc id a1 s1 a2 s2 hcount
    cases hfind : findIdxElem doc.featuredStories (fun f => f.id == id) with
    | none =>
      have hall := eq_false_of_findIdxElem_none hfind
      have h2 : (deleteFeaturedStories doc id a1 s1).2 = doc := by
        simp [deleteFeaturedStories, hfind]
      refine ⟨?_, ?_⟩
      · rw [h2]; intro f hf; simpa using hall f hf
      · rw [h2]; simp [deleteFeaturedStories, hfind]
    | some q =>
      obtain ⟨i, x⟩ := q
      have h2 : (deleteFeaturedStories doc id a1 s1).2.featuredStories =
          doc.featuredStories.eraseIdx i := by
        cases ht : x.title <;> simp [deleteFeaturedStories, hfind, ht, logActivity]
      have hc := countP_eraseIdx_findIdxElem hfind
      have hzero : (doc.featuredStories.eraseIdx i).countP (fun f => f.id == id) = 0 := by
        omega
      have hall := List.countP_eq_zero.mp hzero
      have hnone2 : findIdxElem (doc.featuredStories.eraseIdx i)
          (fun f => f.id == id) = none :=
        findIdxElem_eq_none (fun f hf => by simpa using hall f hf)
      refine ⟨?_, ?_⟩
      · rw [h2]; intro f hf; simpa using hall f hf
      · rw [deleteFeaturedStories, h2, hnone2]
  · intro doc id a1 s1 a2 s2 hcount
    cases hfind : findIdxElem doc.news (fun n => n.id == id) with
    | none =>
      have hall := eq_false_of_findIdxElem_none hfind
      have h2 : (deleteNews doc id a1 s1).2 = doc := by simp [deleteNews, hfind]
      refine ⟨?_, ?_⟩
      · rw [h2]; intro n hn; simpa using hall n hn
      · rw [h2]; simp [deleteNews, hfind]
    | some q =>
      obtain ⟨i, x⟩ := q
      have h2 : (deleteNews doc id a1 s1).2.news = doc.news.eraseIdx i := by
        cases ht : x.title <;> simp [deleteNews, hfind, ht, logActivity]
      have hc := countP_eraseIdx_findIdxElem hfind
      have hzero : (doc.news.eraseIdx i).countP (fun n => n.id == id) = 0 := by omega
      have hall := List.countP_eq_zero.mp hzero
      have hnone2 : findIdxElem (doc.news.eraseIdx i) (fun n => n.id == id) = none :=
        findIdxElem_eq_none (fun n hn => by simpa using hall n hn)
      refine ⟨?_, ?_⟩
      · rw [h2]; intro n hn; simpa using hall n hn
      · rw [deleteNews, h2, hnone2]

/-- The unique-id document of the C6 witness: one breaking-news record with
id 5. -/
def c6wDoc : Document :=
  (postBreakingNews initialDocument c6Body [] (.ok "") (.ok "") 5 "t1").2

/-- Witness for the amended C6: deleting the only record with id 5 removes
it, a second delete answers 404, and deleting the absent id 9 answers 404
with the document unchanged. -/
theorem c6_not_found_and_delete_witness :
    (deleteBreakingNews c6wDoc 5).2.breakingNews = [] ∧
    (deleteBreakingNews (deleteBreakingNews c6wDoc 5).2 5).1 =
      .err 404 "Breaking news not found" none ∧
    deleteBreakingNews c6wDoc 9 = (.err 404 "Breaking news not found" none, c6wDoc) := by
  have huniq := c6_not_found_and_delete.2.2.2.2.2.2.2.1 c6wDoc 5 (by decide)
  refine ⟨by decide, huniq.2, ?_⟩
  exact c6_not_found_and_delete.1 c6wDoc 9 (by decide)

/-- The 60 sequential logged mutations of the C5 witness. -/
def c5Logs : List ActivityInput :=
  (List.range 60).map (fun i =>
    { type := "news", title := "t", user := "Admin User", status := "completed",
      now := i, nowIso := "iso" })

/-- Witness for C5: running the 60 concrete logActivity calls from the fresh
document leaves exactly the 50 most recent records, newest first. -/
theorem c5_activity_log_bounded_witness :
    c5Logs.length = 60 ∧
    (applyLogs initialDocument c5Logs).activities =
      some ((c5Logs.map mkActivity).reverse.take 50) ∧
    (logActivity initialDocument "news" "a" "Admin User" "completed" 7 "iso").activities =
      some [{ id := 7, type := "news", title := "a", user := "Admin User",
              status := "completed", timestamp := "iso" }] := by
  have hlen : c5Logs.length = 60 := by simp [c5Logs]
  refine ⟨hlen, (c5_activity_log_bounded.2 initialDocument c5Logs hlen).1, ?_⟩
  rw [(c5_activity_log_bounded.1 initialDocument "news" "a" "Admin User" "completed" 7 "iso").1]
  rfl

end TimesBackend
